import Mathlib

/-!
Verification development for the UPI-Recon reconciliation backend.

The definitions below are a shallow embedding of the Python sources:
  backend/upi_recon_engine.py  (UPIReconciliationEngine, eight matching passes,
                                exception handling matrix)
  backend/config.py            (UPI_MATCHING_CONFIGS, EXCEPTION_MATRIX)
  backend/recon_engine.py      (legacy ReconciliationEngine classifier,
                                force_match_rrn)
  backend/settlement_engine.py (voucher generation and GL posting)
  backend/app.py               (force-match approval endpoint)
  backend/rollback_manager.py  (rollback validation, mid-recon and accounting
                                rollback)

Modelling conventions:
  - pandas dataframes become lists of records; a row's pandas index label is
    its list position;
  - machine floats for amounts become rationals, with the source's explicit
    0.01 tolerances kept verbatim;
  - timestamps become minutes since an epoch (a natural number); the source
    only compares timestamps for equality, day-distance, and hour/minute of
    day, all of which are preserved at minute granularity;
  - missing values (pandas NaN) have been normalized away upstream
    (recon_engine._handle_missing_values fills them), so string fields are
    total and an absent RRN is the empty string;
  - pandas groupby iterates groups in sorted key order while the embedding
    visits distinct keys in first-occurrence order; every grouped pass marks
    key-disjoint row sets whose marking predicates read only fields that the
    markings never modify, so the visit order does not affect the result;
  - filesystem state becomes explicit store records, and fallible I/O
    primitives take explicit success flags where a claim concerns failure
    behaviour.
-/

namespace UPIRecon

/-- One normalized transaction row as held in the engine's CBS, Switch and
NPCI dataframes, including the five working columns that
perform_upi_reconciliation initializes (processed, match_status,
exception_type, ttum_required, ttum_type). -/
structure Row where
  rrn : String
  upiTranId : String
  tranDate : Nat
  amount : Rat
  drCr : String
  rc : String
  processed : Bool := false
  matchStatus : String := "UNMATCHED"
  exceptionType : Option String := none
  ttumRequired : Bool := false
  ttumType : Option String := none
deriving DecidableEq

/-- The three dataframes the UPI engine operates on. -/
structure EngineState where
  cbs : List Row
  switch : List Row
  npci : List Row
deriving DecidableEq

/-- Reset of the working columns performed at the top of
perform_upi_reconciliation. -/
def initRow (r : Row) : Row :=
  { r with processed := false, matchStatus := "UNMATCHED", exceptionType := none,
           ttumRequired := false, ttumType := none }

def initState (s : EngineState) : EngineState :=
  ⟨s.cbs.map initRow, s.switch.map initRow, s.npci.map initRow⟩

/-- The source's amount-tolerance test abs(a - b) < 0.01, cross-multiplied
into an integer comparison so that it evaluates by kernel reduction. -/
def absDiffLtHundredth (a b : Rat) : Bool :=
  (a.num * b.den - b.num * a.den).natAbs * 100 < a.den * b.den

/-- The source's amount-tolerance test abs(a - b) > 0.01, cross-multiplied
into an integer comparison so that it evaluates by kernel reduction. -/
def absDiffGtHundredth (a b : Rat) : Bool :=
  a.den * b.den < (a.num * b.den - b.num * a.den).natAbs * 100

/-- Distance between two timestamps in minutes. -/
def dateDiff (a b : Nat) : Nat := max a b - min a b

/-- ASCII uppercase of one character (kernel-reducible form of the library
conversion). -/
def upperChar (c : Char) : Char :=
  if c.isLower then Char.ofNat (c.toNat - 32) else c

/-- Python str.upper on the strings this system handles. -/
def strUpper (s : String) : String := ⟨s.data.map upperChar⟩

/-- Python str.startswith. -/
def strStartsWith (s pre : String) : Bool := pre.data.isPrefixOf s.data

/-- Whether a string is empty or whitespace only (Python "not s.strip()"). -/
def strIsBlank (s : String) : Bool :=
  s.data.all fun c => c == ' ' || c == '\t' || c == '\n' || c == '\r'

/-- Mark every row satisfying the predicate, leaving the others unchanged.
This is the shape of every dataframe .loc[...] assignment in the engine. -/
def markWhere (p : Row → Bool) (m : Row → Row) (l : List Row) : List Row :=
  l.map fun r => if p r then m r else r

/-- Mark the rows at the given list positions (pandas .loc on an index set). -/
def markIdx (idxs : List Nat) (m : Row → Row) (l : List Row) : List Row :=
  l.enum.map fun p => if p.1 ∈ idxs then m p.2 else p.2

/-- Mark a single row by position (pandas .loc[row.name, ...]). -/
def setAt (i : Nat) (m : Row → Row) (l : List Row) : List Row :=
  markIdx [i] m l

/-- Selection by RRN and Amount equality, the helper pattern of
_mark_as_matched, _mark_as_hanging and _mark_transaction_status. -/
def markByRrnAmount (x : Row) (m : Row → Row) (l : List Row) : List Row :=
  markWhere (fun r => r.rrn == x.rrn && r.amount == x.amount) m l

/-! ### Pass 1 - cut-off / hanging detection (_step_1_cut_off_transactions) -/

def hangingMark (reason : String) (r : Row) : Row :=
  { r with processed := true, matchStatus := "HANGING", exceptionType := some reason }

/-- _find_partial_match with params RRN and Tran_Date: RRN equal and dates
within two days; first row of the full dataframe. -/
def findPartialMatch (df : List Row) (x : Row) : Option Row :=
  df.find? fun r => r.rrn == x.rrn && dateDiff r.tranDate x.tranDate ≤ 2880

def markAsHanging (x : Row) (reason : String) (npci : List Row) : List Row :=
  markByRrnAmount x (hangingMark reason) npci

def step1Row (s : EngineState) (x : Row) : EngineState :=
  let cbsPM := findPartialMatch s.cbs x
  let swPM := findPartialMatch s.switch x
  let cbsDiff := match cbsPM with
    | some c => absDiffGtHundredth c.amount x.amount
    | none => false
  let swDiff := match swPM with
    | some c => absDiffGtHundredth c.amount x.amount
    | none => false
  if cbsDiff then { s with npci := markAsHanging x "CUT_OFF_TRANSACTION" s.npci }
  else if swDiff then { s with npci := markAsHanging x "CUT_OFF_TRANSACTION" s.npci }
  else
    let hour := x.tranDate / 60 % 24
    let minute := x.tranDate % 60
    if 23 ≤ hour || (hour == 22 && 30 ≤ minute) then
      { s with npci := markAsHanging x "CUT_OFF_TIME" s.npci }
    else s

def step1 (s : EngineState) : EngineState :=
  (s.npci.filter fun r => !r.processed).foldl step1Row s

/-! ### Pass 2 - self-matched pairs (_step_2_self_matched_transactions)

The source groups the full dataframe (not only unprocessed rows) by
(UPI_Tran_ID, RRN, Tran_Date, Amount); the groups are disjoint and the group
predicates read only the immutable data columns, so marking all qualifying
groups is a single map over the dataframe. -/

def groupKey (r : Row) : String × String × Nat × Rat :=
  (r.upiTranId, r.rrn, r.tranDate, r.amount)

def selfMatchedMark (r : Row) : Row :=
  { r with processed := true, matchStatus := "MATCHED", exceptionType := some "SELF_MATCHED" }

/-- The Dr_Cr condition on a two-row group: exactly two distinct values, all
drawn from DR/CR/D/C. -/
def drCrPairOk (grp : List Row) : Bool :=
  let vals := (grp.map (·.drCr)).dedup
  vals.length == 2 && vals.all fun v => v ∈ ["DR", "CR", "D", "C"]

def step2Source (needDrCr : Bool) (df : List Row) : List Row :=
  df.map fun r =>
    let grp := df.filter fun q => groupKey q == groupKey r
    if grp.length == 2 && (!needDrCr || drCrPairOk grp) then selfMatchedMark r else r

def step2 (s : EngineState) : EngineState :=
  { s with cbs := step2Source true s.cbs, switch := step2Source true s.switch,
           npci := step2Source false s.npci }

/-! ### Pass 3 - settlement entries (_step_3_settlement_entries)

unprocessed_cbs is a frozen snapshot of the rows unprocessed at pass entry;
the opposite-entry search is evaluated against that snapshot. -/

def settlementMark (r : Row) : Row :=
  { r with processed := true, matchStatus := "MATCHED", exceptionType := some "SETTLEMENT_ENTRY" }

def oppositeDrCrOk (drCrUpper : String) (q : Row) : Bool :=
  if drCrUpper == "DR" || drCrUpper == "D" then q.drCr ∈ ["CR", "C", "DR", "D"]
  else q.drCr ∈ ["DR", "D"]

def step3Row (snap : List (Nat × Row)) (s : EngineState) (ir : Nat × Row) : EngineState :=
  let dcu := strUpper ir.2.drCr
  if ir.2.amount > 1000 then
    let opp := snap.filter fun p => p.2.amount == ir.2.amount && oppositeDrCrOk dcu p.2
    if 0 < opp.length then
      { s with cbs := markIdx (ir.1 :: opp.map Prod.fst) settlementMark s.cbs }
    else s
  else s

def step3 (s : EngineState) : EngineState :=
  let snap := s.cbs.enum.filter fun p => !p.2.processed
  let noRrn := snap.filter fun p => p.2.rrn == ""
  noRrn.foldl (step3Row snap) s

/-! ### Pass 4 - duplicate detection (_step_4_double_debit_credit)

The source scans only CBS and Switch (NPCI is not iterated), grouping the
unprocessed rows of each source by RRN and marking every group of size
greater than one. -/

def doubleEntryMark (r : Row) : Row :=
  { r with processed := true, matchStatus := "UNMATCHED",
           exceptionType := some "DOUBLE_DEBIT_CREDIT",
           ttumRequired := true, ttumType := some "REVERSAL" }

def step4Source (df : List Row) : List Row :=
  let unproc := df.filter fun r => !r.processed
  df.map fun r =>
    if !r.processed && 1 < (unproc.filter fun q => q.rrn == r.rrn).length then
      doubleEntryMark r
    else r

def step4 (s : EngineState) : EngineState :=
  { s with cbs := step4Source s.cbs, switch := step4Source s.switch }

/-! ### Pass 5 - normal three-way matching (_step_5_normal_matching) -/

/-- One parameter's matching condition in _find_matching_record: amounts
within 0.01, dates equal or within one day, otherwise plain equality. -/
def matchParamOk (param : String) (q x : Row) : Bool :=
  if param == "Amount" then absDiffLtHundredth q.amount x.amount
  else if param == "Tran_Date" then
    q.tranDate == x.tranDate || dateDiff q.tranDate x.tranDate ≤ 1440
  else if param == "UPI_Tran_ID" then q.upiTranId == x.upiTranId
  else q.rrn == x.rrn

def findMatchingRecord (df : List Row) (x : Row) (params : List String) : Option Row :=
  df.find? fun q => params.all fun p => matchParamOk p q x

def matchedMark (matchType : String) (r : Row) : Row :=
  { r with processed := true, matchStatus := "MATCHED", exceptionType := some matchType }

/-- _mark_as_matched: all three dataframes are marked by (RRN, Amount)
equality with the respective matched row, not by row identity. -/
def markAsMatched (c sw x : Row) (matchType : String) (s : EngineState) : EngineState :=
  { s with cbs := markByRrnAmount c (matchedMark matchType) s.cbs,
           switch := markByRrnAmount sw (matchedMark matchType) s.switch,
           npci := markByRrnAmount x (matchedMark matchType) s.npci }

/-- UPI_MATCHING_CONFIGS from config.py (name, params). All canonical columns
are present in the embedding, so the required_fields guard never skips. -/
def upiMatchingConfigs : List (String × List String) :=
  [("best_match", ["UPI_Tran_ID", "RRN", "Tran_Date", "Amount"]),
   ("relaxed_match_i", ["UPI_Tran_ID", "Tran_Date", "Amount"]),
   ("relaxed_match_ii", ["RRN", "Tran_Date", "Amount"])]

/-- _perform_matching_round: the unprocessed CBS/Switch snapshots are frozen
at round entry. -/
def performMatchingRound (s : EngineState) (cands : List Row)
    (params : List String) (matchType : String) : EngineState × Nat :=
  let uc := s.cbs.filter fun r => !r.processed
  let usw := s.switch.filter fun r => !r.processed
  cands.foldl
    (fun acc x =>
      match findMatchingRecord uc x params, findMatchingRecord usw x params with
      | some c, some sw => (markAsMatched c sw x matchType acc.1, acc.2 + 1)
      | _, _ => acc)
    (s, 0)

def step5 (s : EngineState) : EngineState :=
  let cands := s.npci.filter fun r => r.rc == "00" && !r.processed
  (upiMatchingConfigs.foldl
    (fun acc cfg =>
      if 0 < acc.2 then acc
      else
        let res := performMatchingRound acc.1 cands cfg.2 cfg.1
        (res.1, acc.2 + res.2))
    (s, 0)).1

/-! ### Pass 6 - deemed accepted, TCC 102/103 (_step_6_deemed_accepted_matching) -/

def tcc102Mark (r : Row) : Row :=
  { r with processed := true, matchStatus := "MATCHED", exceptionType := some "TCC_102" }

def tcc103Mark (r : Row) : Row :=
  { r with processed := true, matchStatus := "UNMATCHED", exceptionType := some "TCC_103",
           ttumRequired := true, ttumType := some "BENEFICIARY_CREDIT" }

def isDebitDrCr (q : Row) : Bool := q.drCr ∈ ["DR", "D", "DEBIT"]

def step6Row (s : EngineState) (ix : Nat × Row) : EngineState :=
  let debits := s.cbs.enum.filter fun p =>
    p.2.rrn == ix.2.rrn && isDebitDrCr p.2 && !p.2.processed
  if 0 < debits.length then
    { s with npci := setAt ix.1 tcc102Mark s.npci,
             cbs := markIdx (debits.map Prod.fst) tcc102Mark s.cbs }
  else
    { s with npci := setAt ix.1 tcc103Mark s.npci }

def step6 (s : EngineState) : EngineState :=
  (s.npci.enum.filter fun p => p.2.rc == "RB" && !p.2.processed).foldl step6Row s

/-! ### Pass 7 - NPCI declined (_step_7_npci_declined_transactions) -/

def npciFailedMark (r : Row) : Row :=
  { r with processed := true, matchStatus := "UNMATCHED", exceptionType := some "NPCI_FAILED",
           ttumRequired := true, ttumType := some "REVERSAL" }

def npciDeclinedMark (r : Row) : Row :=
  { r with processed := true, matchStatus := "UNMATCHED", exceptionType := some "NPCI_DECLINED" }

def step7Row (s : EngineState) (ix : Nat × Row) : EngineState :=
  let entries := s.cbs.enum.filter fun p => p.2.rrn == ix.2.rrn && !p.2.processed
  let s2 :=
    if 0 < entries.length then
      { s with cbs := markIdx (entries.map Prod.fst) npciFailedMark s.cbs }
    else s
  { s2 with npci := setAt ix.1 npciDeclinedMark s2.npci }

def step7 (s : EngineState) : EngineState :=
  (s.npci.enum.filter fun p => !(p.2.rc ∈ ["00", "RB"]) && !p.2.processed).foldl step7Row s

/-! ### Pass 8 - failed auto-credit reversal (_step_8_failed_auto_credit_reversal) -/

def failedReversalMark (r : Row) : Row :=
  { r with processed := true, matchStatus := "UNMATCHED",
           exceptionType := some "FAILED_AUTO_REVERSAL",
           ttumRequired := true, ttumType := some "REVERSAL" }

def step8Group (snap : List (Nat × Row)) (s : EngineState) (rrn : String) : EngineState :=
  let grp := snap.filter fun p => p.2.rrn == rrn
  if grp.length == 2 && ((grp.map fun p => p.2.amount).dedup).length == 1 then
    let entries := s.cbs.enum.filter fun p => p.2.rrn == rrn && !p.2.processed
    if entries.length == 1 then
      { s with npci := markIdx (grp.map Prod.fst) failedReversalMark s.npci,
               cbs := markIdx (entries.map Prod.fst) failedReversalMark s.cbs }
    else s
  else s

def step8 (s : EngineState) : EngineState :=
  let snap := s.npci.enum.filter fun p => !p.2.processed
  ((snap.map fun p => p.2.rrn).dedup).foldl (step8Group snap) s

/-! ### Residual classifier (_apply_exception_handling_matrix)

The matrix pass iterates only the unprocessed CBS rows, looking up the first
unprocessed Switch and NPCI rows with the same RRN in snapshots frozen at
pass entry. -/

/-- EXCEPTION_MATRIX from config.py: combination key to (action,
ttum_required). -/
def exceptionMatrix : List (String × String × Bool) :=
  [("SUCCESS_SUCCESS_SUCCESS", "MATCHED", false),
   ("SUCCESS_SUCCESS_FAILED", "REMITTER_REFUND", true),
   ("SUCCESS_FAILED_SUCCESS", "SWITCH_UPDATE", false),
   ("SUCCESS_FAILED_FAILED", "REMITTER_REFUND", true),
   ("FAILED_SUCCESS_SUCCESS", "BENEFICIARY_RECOVERY", true),
   ("FAILED_SUCCESS_FAILED", "UNMATCHED", false),
   ("FAILED_FAILED_SUCCESS", "BENEFICIARY_RECOVERY", true),
   ("FAILED_FAILED_FAILED", "UNMATCHED", false)]

def findMatchingByRrn (df : List Row) (rrn : String) : Option Row :=
  df.find? fun r => r.rrn == rrn

/-- _get_source_status for Switch: present and RC equal to 00. -/
def switchSourceStatus : Option Row → String
  | none => "FAILED"
  | some q => if q.rc == "00" then "SUCCESS" else "FAILED"

/-- _get_source_status for NPCI: present and RC in 00 or RB. -/
def npciSourceStatus : Option Row → String
  | none => "FAILED"
  | some q => if q.rc ∈ ["00", "RB"] then "SUCCESS" else "FAILED"

/-- _mark_transaction_status's row update: match_status and ttum_required are
always assigned, exception_type and ttum_type only when non-null. -/
def statusMark (ms : String) (et : Option String) (tr : Bool) (tt : Option String)
    (r : Row) : Row :=
  { r with processed := true, matchStatus := ms,
           exceptionType := match et with | some e => some e | none => r.exceptionType,
           ttumRequired := tr,
           ttumType := match tt with | some t => some t | none => r.ttumType }

def markTransactionStatus (c : Row) (sw np : Option Row) (ms : String)
    (et : Option String) (tr : Bool) (tt : Option String) (s : EngineState) : EngineState :=
  let s1 := { s with cbs := markByRrnAmount c (statusMark ms et tr tt) s.cbs }
  let s2 := match sw with
    | some w => { s1 with switch := markByRrnAmount w (statusMark ms et tr tt) s1.switch }
    | none => s1
  match np with
  | some n => { s2 with npci := markByRrnAmount n (statusMark ms et tr tt) s2.npci }
  | none => s2

/-- _apply_exception_actions. -/
def applyExceptionActions (c : Row) (sw np : Option Row) (action : String)
    (s : EngineState) : EngineState :=
  if action == "MATCHED" then
    markTransactionStatus c sw np "MATCHED" none false none s
  else if action == "REMITTER_REFUND" then
    markTransactionStatus c sw np "UNMATCHED" (some "NPCI_FAILED") true (some "REVERSAL") s
  else if action == "BENEFICIARY_RECOVERY" then
    markTransactionStatus c sw np "UNMATCHED" (some "BENEFICIARY_RECOVERY") true
      (some "BENEFICIARY_CREDIT") s
  else if action == "SWITCH_UPDATE" then
    markTransactionStatus c sw np "UNMATCHED" (some "SWITCH_UPDATE") false none s
  else
    markTransactionStatus c sw np "UNMATCHED" none false none s

def matrixRow (usw unp : List Row) (s : EngineState) (c : Row) : EngineState :=
  let swm := findMatchingByRrn usw c.rrn
  let npm := findMatchingByRrn unp c.rrn
  let key := "SUCCESS" ++ "_" ++ switchSourceStatus swm ++ "_" ++ npciSourceStatus npm
  match exceptionMatrix.lookup key with
  | some a => applyExceptionActions c swm npm a.1 s
  | none => s

def applyExceptionHandlingMatrix (s : EngineState) : EngineState :=
  let uc := s.cbs.filter fun r => !r.processed
  let usw := s.switch.filter fun r => !r.processed
  let unp := s.npci.filter fun r => !r.processed
  uc.foldl (matrixRow usw unp) s

/-- The eight ordered passes of perform_upi_reconciliation. -/
def runPasses (s : EngineState) : EngineState :=
  step8 (step7 (step6 (step5 (step4 (step3 (step2 (step1 s)))))))

def afterPasses (s : EngineState) : EngineState :=
  runPasses (initState s)

/-- perform_upi_reconciliation: initialize flags, run the eight passes, then
apply the exception handling matrix. -/
def performUpiReconciliation (s : EngineState) : EngineState :=
  applyExceptionHandlingMatrix (afterPasses s)

/-! ## Legacy reconciliation engine (recon_engine.py) -/

/-- One per-source slot of a legacy Reconciliation Record, as populated by
_populate_record_by_source. -/
structure SrcRec where
  amount : Rat
  date : String
  drCr : String
  rc : String
deriving DecidableEq

/-- A legacy Reconciliation Record. -/
structure RecRecord where
  cbs : Option SrcRec := none
  switch : Option SrcRec := none
  npci : Option SrcRec := none
  ntsl : Option SrcRec := none
  status : String := "UNKNOWN"
  tcc : Option String := none
  needsTtum : Bool := false
  settlementMatched : Bool := false
deriving DecidableEq

/-- The per-source slots present on a record, in SOURCES order
(cbs, switch, npci, ntsl). -/
def RecRecord.presentSlots (rec : RecRecord) : List SrcRec :=
  [rec.cbs, rec.switch, rec.npci, rec.ntsl].filterMap id

def RecRecord.presentCount (rec : RecRecord) : Nat :=
  rec.presentSlots.length

/-- amounts_match of _classify_record: the set of amounts over the present
slots has exactly one element. -/
def RecRecord.amountsMatch (rec : RecRecord) : Bool :=
  ((rec.presentSlots.map (·.amount)).dedup).length == 1

def RecRecord.datesMatch (rec : RecRecord) : Bool :=
  ((rec.presentSlots.map (·.date)).dedup).length == 1

/-- The success markers used by _classify_record's NTSL and failure blocks. -/
def legacySuccessMarkers : List String := ["00", "0", "SUCCESS", "S"]

/-- The base status table at the top of _classify_record, keyed on the
number of sources. -/
def classifyBase (rec : RecRecord) (numSources : Nat) : String :=
  if numSources == 3 then
    if rec.amountsMatch && rec.datesMatch then "MATCHED" else "MISMATCH"
  else if numSources == 2 then
    if rec.amountsMatch && rec.datesMatch then "PARTIAL_MATCH" else "PARTIAL_MISMATCH"
  else if numSources == 1 then "ORPHAN"
  else "UNKNOWN"

/-- The TCC block of _classify_record: NPCI RC starting with RB sets tcc to
TCC_102 when the CBS Dr_Cr starts with C, else TCC_103 with needs_ttum. -/
def applyTccRules (rec : RecRecord) : RecRecord :=
  match rec.npci with
  | some np =>
    if strStartsWith (strUpper np.rc) "RB" then
      match rec.cbs with
      | some c =>
        if strStartsWith (strUpper c.drCr) "C" then { rec with tcc := some "TCC_102" }
        else { rec with tcc := some "TCC_103", needsTtum := true }
      | none => { rec with tcc := some "TCC_103", needsTtum := true }
    else rec
  | none => rec

/-- The GL-equivalent amount used by the NTSL block: CBS, else Switch, else
NPCI. -/
def RecRecord.glAmount (rec : RecRecord) : Option Rat :=
  match rec.cbs with
  | some c => some c.amount
  | none =>
    match rec.switch with
    | some sw => some sw.amount
    | none =>
      match rec.npci with
      | some np => some np.amount
      | none => none

/-- Whether the NTSL settlement block of _classify_record overrides the
status to MATCHED. -/
def ntslOverrideApplies (rec : RecRecord) : Bool :=
  match rec.ntsl, rec.glAmount with
  | some nt, some gl => absDiffLtHundredth nt.amount gl
  | _, _ => false

def applyNtslOverride (rec : RecRecord) : RecRecord :=
  if ntslOverrideApplies rec then
    { rec with status := "MATCHED", settlementMatched := true }
  else rec

/-- Whether the failed-transaction block of _classify_record overrides the
status to EXCEPTION: NPCI RC not a success marker while the CBS RC is one. -/
def exceptionOverrideApplies (rec : RecRecord) : Bool :=
  match rec.npci, rec.cbs with
  | some np, some c =>
    !(strUpper np.rc ∈ legacySuccessMarkers) && strUpper c.rc ∈ legacySuccessMarkers
  | _, _ => false

def applyExceptionOverride (rec : RecRecord) : RecRecord :=
  if exceptionOverrideApplies rec then { rec with status := "EXCEPTION" } else rec

/-- _classify_record: the base table followed by the TCC, NTSL-settlement
and failed-transaction blocks, in source order. num_sources is the size of
the group's set of Source column values. -/
def classifyRecord (rec : RecRecord) (numSources : Nat) : RecRecord :=
  applyExceptionOverride
    (applyNtslOverride
      (applyTccRules { rec with status := classifyBase rec numSources }))

/-- The four source slots of a legacy record, for force_match_rrn. -/
inductive SourceName
  | cbs
  | switch
  | npci
  | ntsl
deriving DecidableEq

def RecRecord.getSlot (rec : RecRecord) : SourceName → Option SrcRec
  | .cbs => rec.cbs
  | .switch => rec.switch
  | .npci => rec.npci
  | .ntsl => rec.ntsl

def RecRecord.setSlot (rec : RecRecord) : SourceName → Option SrcRec → RecRecord
  | .cbs, v => { rec with cbs := v }
  | .switch, v => { rec with switch := v }
  | .npci, v => { rec with npci := v }
  | .ntsl, v => { rec with ntsl := v }

/-- force_match_rrn: when the RRN is present and both named sources exist,
set status to FORCE_MATCHED and copy amount and date from source1 onto
source2; otherwise leave the results unchanged. The results dict becomes an
association list whose keys are the RRNs. -/
def forceMatchRrn (rrn : String) (source1 source2 : SourceName)
    (results : List (String × RecRecord)) : List (String × RecRecord) :=
  results.map fun pr =>
    if pr.1 == rrn then
      match pr.2.getSlot source1, pr.2.getSlot source2 with
      | some a, some b =>
        (pr.1, ({ pr.2 with status := "FORCE_MATCHED" }).setSlot source2
                 (some { b with amount := a.amount, date := a.date }))
      | _, _ => pr
    else pr

/-! ## Settlement engine (settlement_engine.py) -/

/-- A General Ledger entry of a voucher. -/
structure GLEntry where
  accountCode : String
  debitAmount : Rat := 0
  creditAmount : Rat := 0
deriving DecidableEq

inductive VoucherStatus
  | generated
  | posted
  | failed
  | reversed
deriving DecidableEq

/-- An accounting voucher. -/
structure Voucher where
  voucherId : String
  voucherType : String
  amount : Rat
  glEntries : List GLEntry
  status : VoucherStatus := .generated
  rrn : String
deriving DecidableEq

def Voucher.debitTotal (v : Voucher) : Rat :=
  (v.glEntries.map (·.debitAmount)).sum

def Voucher.creditTotal (v : Voucher) : Rat :=
  (v.glEntries.map (·.creditAmount)).sum

/-- _create_payment_voucher: amount is the CBS amount (0 when CBS absent);
no voucher for non-positive amounts; debit bank_account and credit
settlement_receivable by the amount. -/
def createPaymentVoucher (counter : Nat) (rrn : String) (rec : RecRecord) : Option Voucher :=
  let amount := match rec.cbs with | some c => c.amount | none => 0
  if amount ≤ 0 then none
  else
    some { voucherId := "VOUCHER_" ++ toString counter,
           voucherType := "PAYMENT",
           amount := amount,
           glEntries := [{ accountCode := "100200", debitAmount := amount },
                         { accountCode := "100300", creditAmount := amount }],
           rrn := rrn }

/-- _create_settlement_voucher: amount from CBS, else Switch, else NPCI;
no voucher for non-positive amounts; debit suspense_account and credit
settlement_payable by the amount. -/
def createSettlementVoucher (counter : Nat) (rrn : String) (rec : RecRecord) : Option Voucher :=
  let amount := match rec.cbs with
    | some c => c.amount
    | none =>
      match rec.switch with
      | some sw => sw.amount
      | none => match rec.npci with | some np => np.amount | none => 0
  if amount ≤ 0 then none
  else
    some { voucherId := "SETTLE_" ++ toString counter,
           voucherType := "SETTLEMENT",
           amount := amount,
           glEntries := [{ accountCode := "200100", debitAmount := amount },
                         { accountCode := "200200", creditAmount := amount }],
           rrn := rrn }

/-- One record's contribution in generate_vouchers_from_recon. -/
def voucherStep (acc : List Voucher × Nat) (pr : String × RecRecord) : List Voucher × Nat :=
  if pr.2.status == "MATCHED" then
    match createPaymentVoucher acc.2 pr.1 pr.2 with
    | some v => (acc.1 ++ [v], acc.2 + 1)
    | none => acc
  else if pr.2.status == "PARTIAL_MATCH" || pr.2.status == "ORPHAN" then
    match createSettlementVoucher acc.2 pr.1 pr.2 with
    | some v => (acc.1 ++ [v], acc.2 + 1)
    | none => acc
  else acc

/-- generate_vouchers_from_recon: one payment voucher per MATCHED record,
one settlement voucher per PARTIAL_MATCH or ORPHAN record, with a
monotonically assigned counter. -/
def generateVouchersFromRecon (results : List (String × RecRecord)) : List Voucher :=
  (results.foldl voucherStep ([], 1)).1

/-- Whether a voucher is selected by post_vouchers_to_gl: listed in the
given voucher_ids, or, when no ids are given, currently GENERATED. -/
def voucherTargeted (ids : Option (List String)) (v : Voucher) : Bool :=
  match ids with
  | some l => v.voucherId ∈ l
  | none => v.status == .generated

/-- post_vouchers_to_gl on one targeted voucher: unbalanced beyond the 0.01
tolerance becomes FAILED, otherwise POSTED. -/
def postVoucher (v : Voucher) : Voucher :=
  if absDiffGtHundredth v.debitTotal v.creditTotal then { v with status := .failed }
  else { v with status := .posted }

/-- post_vouchers_to_gl over the voucher store. -/
def postVouchersToGl (vouchers : List Voucher) (ids : Option (List String)) : List Voucher :=
  vouchers.map fun v => if voucherTargeted ids v then postVoucher v else v

/-! ## Maker-checker force-match approval (app.py, approve_force_match) -/

/-- A persisted force-match proposal. -/
structure Proposal where
  proposalId : String
  rrn : String
  action : String
  runId : String
  maker : String
  status : String
  checker : Option String := none
  checkerComments : Option String := none
  approvedAt : Option String := none
deriving DecidableEq

/-- A record of the persisted recon output as seen by the approval endpoint
(both the UPI exceptions-array format and the legacy RRN-keyed format carry
these fields once force-matched). -/
structure ExcRec where
  rrn : String
  status : String
  forceMatched : Bool := false
  forceMatchProposalId : Option String := none
  forceMatchApprovedBy : Option String := none
  forceMatchApprovedAt : Option String := none
deriving DecidableEq

/-- recon_output.json in either persisted format. -/
inductive ReconOut
  | upiFormat (exceptions : List ExcRec)
  | legacyMap (records : List (String × ExcRec))
deriving DecidableEq

/-- The proposal files on disk: one list of proposals per run id. -/
abbrev ProposalFiles := List (String × List Proposal)

/-- Lookup in a string-keyed association list (a JSON object). -/
def alookup {β : Type} (key : String) : List (String × β) → Option β
  | [] => none
  | pr :: rest => if pr.1 == key then some pr.2 else alookup key rest

/-- The endpoint's scan over OUTPUT_DIR proposal files: first proposal with
the given id, in file order. -/
def findProposal (files : ProposalFiles) (pid : String) : Option Proposal :=
  files.findSome? fun pr => pr.2.find? fun p => p.proposalId == pid

/-- Replace the first proposal carrying the given id. -/
def replaceProposal (pid : String) (updated : Proposal) : List Proposal → List Proposal
  | [] => []
  | p :: ps =>
    if p.proposalId == pid then updated :: ps else p :: replaceProposal pid updated ps

/-- Persist the approved proposal back into the file named by its run_id
field (the endpoint reloads and saves that run's proposal file). -/
def persistProposal (files : ProposalFiles) (runId pid : String)
    (updated : Proposal) : ProposalFiles :=
  files.map fun pr =>
    if pr.1 == runId then (pr.1, replaceProposal pid updated pr.2) else pr

/-- The FORCE_MATCHED stamp written into the recon output on approval. -/
def forceMatchStamp (pid checker now : String) (e : ExcRec) : ExcRec :=
  { e with status := "FORCE_MATCHED", forceMatched := true,
           forceMatchProposalId := some pid,
           forceMatchApprovedBy := some checker,
           forceMatchApprovedAt := some now }

def stampFirstExc (rrn pid checker now : String) : List ExcRec → List ExcRec
  | [] => []
  | e :: es =>
    if e.rrn == rrn then forceMatchStamp pid checker now e :: es
    else e :: stampFirstExc rrn pid checker now es

def stampLegacy (rrn pid checker now : String) :
    List (String × ExcRec) → List (String × ExcRec)
  | [] => []
  | pr :: prs =>
    if pr.1 == rrn then (pr.1, forceMatchStamp pid checker now pr.2) :: prs
    else pr :: stampLegacy rrn pid checker now prs

/-- The recon_output.json update on approval: UPI format stamps the first
matching exception entry; the legacy format stamps the RRN key when present
and otherwise leaves the output unchanged. -/
def markReconForceMatched (rrn pid checker now : String) : ReconOut → ReconOut
  | .upiFormat excs => .upiFormat (stampFirstExc rrn pid checker now excs)
  | .legacyMap recs =>
    if (alookup rrn recs).isSome then .legacyMap (stampLegacy rrn pid checker now recs)
    else .legacyMap recs

/-- approve_force_match: find the proposal, reject when the checker equals
the maker, otherwise mark it approved (stamping checker, comments and
timestamp), persist it into its run's proposal file, and stamp the run's
recon output FORCE_MATCHED for the proposal's RRN. -/
def approveForceMatch (files : ProposalFiles) (recon : ReconOut)
    (checker pid comments now : String) : Except String (ProposalFiles × ReconOut) :=
  match findProposal files pid with
  | none => .error "Proposal not found"
  | some found =>
    if checker == found.maker then .error "Maker and checker must be different"
    else
      let updated := { found with
        status := "approved", checker := some checker,
        checkerComments := some comments, approvedAt := some now }
      .ok (persistProposal files found.runId pid updated,
           markReconForceMatched found.rrn pid checker now recon)

/-! ## Rollback manager (rollback_manager.py) with explicit I/O faults

Filesystem state becomes a per-run store; each fallible I/O step of the
mid-recon and accounting rollbacks takes an explicit success flag, so that
the failure behaviour claimed by the spec is expressible. A failed write
leaves the written file unchanged and raises, as the corresponding Python
call would. The write-temp-then-rename of the artifact is kept: a temp-write
or rename failure leaves the artifact untouched. -/

/-- One record of rollback_history.json (restricted to one run). -/
structure HistRec where
  rollbackId : String
  level : String
  status : String
deriving DecidableEq

/-- A matched or unmatched transaction of a recon output. -/
structure RbTxn where
  rrn : String
  cycleId : String
deriving DecidableEq

/-- recon_output.json as the rollback manager reads it. -/
structure ReconData where
  matched : List RbTxn
  unmatched : List RbTxn
  summaryNote : Option String := none
deriving DecidableEq

/-- One voucher of accounting_output.json. -/
structure AcctVoucher where
  voucherId : String
  status : String
  glEntries : List String
  previousStatus : Option String := none
  hasRollbackMetadata : Bool := false
deriving DecidableEq

/-- accounting_output.json. -/
structure AcctData where
  vouchers : List AcctVoucher
  statusNote : Option String := none
deriving DecidableEq

/-- The on-disk state of one run as the rollback manager sees it, together
with the download flag written by the TTUM download endpoints. -/
structure RunStore where
  runExists : Bool
  history : List HistRec
  reconOutput : Option ReconData
  accountingOutput : Option AcctData
  backups : Nat := 0
  isDownloaded : Bool := false
deriving DecidableEq

/-- _validate_rollback_allowed: refuse when the latest history record is
still in progress, when the run folder is missing, or when the level's
artifact is absent. The download flag is not consulted anywhere in the
manager. -/
def validateRollbackAllowed (st : RunStore) (level : String) : Bool × String :=
  if (st.history.getLast?.map (·.status)) == some "in_progress" then
    (false, "Rollback already in progress for this run")
  else if !st.runExists then (false, "Run not found")
  else if level == "mid_recon" && st.reconOutput.isNone then
    (false, "No reconciliation output found for mid-recon rollback")
  else if level == "cycle_wise" && st.reconOutput.isNone then
    (false, "No reconciliation output found for cycle-wise rollback")
  else if level == "accounting" && st.accountingOutput.isNone then
    (false, "No accounting output found for accounting rollback")
  else (true, "Rollback allowed")

/-- Success flags for the fallible I/O steps of one rollback run, in
execution order. -/
structure RbFaults where
  logPendingOk : Bool := true
  markInProgressOk : Bool := true
  readArtifactOk : Bool := true
  copyBackupOk : Bool := true
  writeTempOk : Bool := true
  renameTempOk : Bool := true
  markCompletedOk : Bool := true
  markFailureOk : Bool := true
deriving DecidableEq

/-- Outcome of a rollback call: a success payload or a raised error. -/
inductive RbOutcome
  | ok (restored : Nat)
  | err (msg : String)
deriving DecidableEq

/-- _update_rollback_status on this run's history slice. -/
def setHistStatus (rbId status : String) (hist : List HistRec) : List HistRec :=
  hist.map fun h => if h.rollbackId == rbId then { h with status := status } else h

/-- The except-branch shared by both rollbacks: mark the history record
FAILED (itself a fallible write) and re-raise. -/
def rollbackFailPath (st : RunStore) (rbId msg : String) (f : RbFaults) :
    RunStore × RbOutcome :=
  if f.markFailureOk then
    ({ st with history := setHistStatus rbId "failed" st.history }, .err msg)
  else (st, .err msg)

/-- The accounting mutation: every voucher in voucher_generated state is
reset to matched/pending with its GL entries cleared, and the accounting
status notes the rollback. voucher_ids is None (the endpoint's call). -/
def acctMutate (d : AcctData) : AcctData :=
  { vouchers := d.vouchers.map fun v =>
      if v.status == "voucher_generated" then
        { v with previousStatus := some v.status, status := "matched/pending",
                 glEntries := [], hasRollbackMetadata := true }
      else v,
    statusNote := some "rolled_back" }

def acctResetCount (d : AcctData) : Nat :=
  (d.vouchers.filter fun v => v.status == "voucher_generated").length

/-- accounting_rollback (voucher_ids None, confirmation off): validate,
check the reason, log PENDING, mark IN_PROGRESS, read the artifact, back it
up, mutate, write-temp-rename, mark COMPLETED. -/
def accountingRollback (st : RunStore) (reason rbId : String) (f : RbFaults) :
    RunStore × RbOutcome :=
  let v := validateRollbackAllowed st "accounting"
  if !v.1 then (st, .err ("Accounting rollback not allowed: " ++ v.2))
  else if strIsBlank reason then (st, .err "Rollback reason cannot be empty")
  else if !f.logPendingOk then (st, .err "history write failed")
  else
    let st := { st with history := st.history ++ [⟨rbId, "accounting", "pending"⟩] }
    if !f.markInProgressOk then rollbackFailPath st rbId "history write failed" f
    else
      let st := { st with history := setHistStatus rbId "in_progress" st.history }
      match st.accountingOutput, f.readArtifactOk with
      | none, _ => rollbackFailPath st rbId "Accounting output not found" f
      | some _, false => rollbackFailPath st rbId "read failed" f
      | some d, true =>
        if !f.copyBackupOk then rollbackFailPath st rbId "Cannot proceed without backup" f
        else
          let st := { st with backups := st.backups + 1 }
          if !f.writeTempOk then
            rollbackFailPath st rbId "Failed to save rolled back accounting data" f
          else if !f.renameTempOk then
            rollbackFailPath st rbId "Failed to save rolled back accounting data" f
          else
            let st := { st with accountingOutput := some (acctMutate d) }
            if !f.markCompletedOk then rollbackFailPath st rbId "history write failed" f
            else
              ({ st with history := setHistStatus rbId "completed" st.history },
               .ok (acctResetCount d))

/-- The mid-recon mutation with affected_transactions None: every matched
transaction moves back to unmatched and the summary notes the rollback. -/
def midReconMutate (d : ReconData) : ReconData :=
  { matched := [], unmatched := d.unmatched ++ d.matched,
    summaryNote := some "last_rollback" }

/-- mid_recon_rollback (affected_transactions None, confirmation off). -/
def midReconRollback (st : RunStore) (rbId : String) (f : RbFaults) :
    RunStore × RbOutcome :=
  let v := validateRollbackAllowed st "mid_recon"
  if !v.1 then (st, .err ("Mid-recon rollback not allowed: " ++ v.2))
  else if !f.logPendingOk then (st, .err "history write failed")
  else
    let st := { st with history := st.history ++ [⟨rbId, "mid_recon", "pending"⟩] }
    if !f.markInProgressOk then rollbackFailPath st rbId "history write failed" f
    else
      let st := { st with history := setHistStatus rbId "in_progress" st.history }
      match st.reconOutput, f.readArtifactOk with
      | none, _ => rollbackFailPath st rbId "Reconciliation output not found" f
      | some _, false => rollbackFailPath st rbId "read failed" f
      | some d, true =>
        if !f.copyBackupOk then rollbackFailPath st rbId "Cannot proceed without backup" f
        else
          let st := { st with backups := st.backups + 1 }
          if !f.writeTempOk then
            rollbackFailPath st rbId "Failed to save rolled back data" f
          else if !f.renameTempOk then
            rollbackFailPath st rbId "Failed to save rolled back data" f
          else
            let st := { st with reconOutput := some (midReconMutate d) }
            if !f.markCompletedOk then rollbackFailPath st rbId "history write failed" f
            else
              ({ st with history := setHistStatus rbId "completed" st.history },
               .ok d.matched.length)

/-! ## Definitions used by the statements and proofs -/

/-- A row marking that sets the processed flag and preserves the immutable
data columns; every marking of the engine has this shape. -/
def GoodMark (m : Row → Row) : Prop :=
  ∀ r, (m r).rrn = r.rrn ∧ (m r).amount = r.amount ∧ (m r).processed = true

/-- How one row can evolve across engine passes: the data columns are
stable, and a row still unprocessed afterwards was never touched. -/
def RowEvol (a b : Row) : Prop :=
  b.rrn = a.rrn ∧ b.amount = a.amount ∧ (b.processed = false → b = a)

/-- Pointwise evolution of a whole dataframe. -/
def ListEvol : List Row → List Row → Prop := List.Forall₂ RowEvol

/-- Distinctness of the RRNs carried by a dataframe's unprocessed rows. -/
def UnprocRrnNodup (l : List Row) : Bool :=
  ((l.filter fun r => !r.processed).map (·.rrn)).Nodup

/-- The residual classifier's outcome for a group with an unprocessed CBS
row (CBS always counts SUCCESS there), keyed on whether Switch and NPCI
count SUCCESS: the marking parameters passed to _mark_transaction_status. -/
def residualOutcome : Bool → Bool → String × Option String × Bool × Option String
  | true, true => ("MATCHED", none, false, none)
  | true, false => ("UNMATCHED", some "NPCI_FAILED", true, some "REVERSAL")
  | false, true => ("UNMATCHED", some "SWITCH_UPDATE", false, none)
  | false, false => ("UNMATCHED", some "NPCI_FAILED", true, some "REVERSAL")

/-- Whether the Switch leg of an RRN group counts SUCCESS for the residual
classifier: first unprocessed Switch row with that RRN present with RC 00. -/
def residualSwitchOk (s : EngineState) (rrn : String) : Bool :=
  switchSourceStatus (findMatchingByRrn (s.switch.filter fun r => !r.processed) rrn)
    == "SUCCESS"

/-- Whether the NPCI leg of an RRN group counts SUCCESS for the residual
classifier: first unprocessed NPCI row with that RRN present with RC 00 or
RB. -/
def residualNpciOk (s : EngineState) (rrn : String) : Bool :=
  npciSourceStatus (findMatchingByRrn (s.npci.filter fun r => !r.processed) rrn)
    == "SUCCESS"

/-- The residual classifier's marking of an unprocessed CBS row. -/
def residualMark (s : EngineState) (c : Row) : Row :=
  let o := residualOutcome (residualSwitchOk s c.rrn) (residualNpciOk s c.rrn)
  statusMark o.1 o.2.1 o.2.2.1 o.2.2.2 c

/-- The debit-leg test pass 6 runs against the CBS frame for an NPCI row
carrying the given RRN. -/
def debitPred (rrn : String) : Nat × Row → Bool :=
  fun p => p.2.rrn == rrn && isDebitDrCr p.2 && !p.2.processed

/-- The row filter selecting pass 6's NPCI iteration set. -/
def rbPred : Nat × Row → Bool := fun p => p.2.rc == "RB" && !p.2.processed

/-- The marking parameters the residual pass derives from the frozen
unprocessed Switch and NPCI snapshots for one RRN. -/
def residualParams (usw unp : List Row) (rrn : String) :
    String × Option String × Bool × Option String :=
  residualOutcome (switchSourceStatus (findMatchingByRrn usw rrn) == "SUCCESS")
    (npciSourceStatus (findMatchingByRrn unp rrn) == "SUCCESS")

/-- Status of the history record with the given rollback id. -/
def histStatusOf (st : RunStore) (rbId : String) : Option String :=
  (st.history.find? fun h => h.rollbackId == rbId).map (·.status)

/-- No persisted proposal is approved with its maker as its checker. -/
def NoSelfApproval (files : ProposalFiles) : Prop :=
  ∀ pr ∈ files, ∀ p ∈ pr.2, p.status = "approved" → p.checker ≠ some p.maker

/-- A fault schedule on which every I/O step succeeds. -/
def allOkFaults : RbFaults := {}

/-! ### Concrete inputs for counterexamples and witnesses -/

/-- CBS rows of the C3 failing input: a self-reversal pair and a third row
sharing their RRN and Amount. -/
def cexCbsA : Row :=
  { rrn := "R1", upiTranId := "U1", tranDate := 600, amount := 100, drCr := "D", rc := "00" }

def cexCbsB : Row := { cexCbsA with drCr := "C" }

def cexCbsC : Row := { cexCbsA with upiTranId := "U2" }

/-- C3 failing input: CBS holds a self-reversal pair plus one residual row
with the same RRN and Amount; Switch and NPCI are empty. -/
def c3Input : EngineState := ⟨[cexCbsA, cexCbsB, cexCbsC], [], []⟩

/-- A Switch row forming, with cexNpciRow, an RRN group with no CBS record
whose Switch and NPCI both count SUCCESS. -/
def cexSwitchRow : Row :=
  { rrn := "R1", upiTranId := "U1", tranDate := 600, amount := 100, drCr := "C", rc := "00" }

def cexNpciRow : Row :=
  { rrn := "R1", upiTranId := "U1", tranDate := 600, amount := 100, drCr := "", rc := "00" }

/-- C1 counterexample input: a group with Switch and NPCI SUCCESS rows but
no CBS record at all. -/
def c1Input : EngineState := ⟨[], [cexSwitchRow], [cexNpciRow]⟩

/-- A one-group state with CBS, Switch and NPCI all present and successful,
for the C1 witness. -/
def c1WitCbs : Row :=
  { rrn := "R1", upiTranId := "U1", tranDate := 600, amount := 100, drCr := "D", rc := "00" }

def c1WitState : EngineState := ⟨[c1WitCbs], [cexSwitchRow], [cexNpciRow]⟩

/-- C5 counterexample input: a duplicated RRN inside CBS (differing
amounts) and a duplicated RRN inside NPCI (differing amounts). -/
def c5CbsA : Row :=
  { rrn := "C1", upiTranId := "U1", tranDate := 600, amount := 100, drCr := "D", rc := "00" }

def c5CbsB : Row := { c5CbsA with upiTranId := "U2", amount := 200 }

def c5NpciA : Row :=
  { rrn := "N1", upiTranId := "U3", tranDate := 600, amount := 100, drCr := "", rc := "00" }

def c5NpciB : Row := { c5NpciA with upiTranId := "U4", amount := 200 }

def c5Input : EngineState := ⟨[c5CbsA, c5CbsB], [], [c5NpciA, c5NpciB]⟩

/-- A CBS debit row for the C4 witness. -/
def c4CbsDebit : Row :=
  { rrn := "R4", upiTranId := "U4", tranDate := 600, amount := 100, drCr := "D", rc := "00" }

/-- An unprocessed NPCI RB row for the C4 witness. -/
def c4NpciRb : Row :=
  { rrn := "R4", upiTranId := "U4", tranDate := 600, amount := 100, drCr := "", rc := "RB" }

def c4NpciRbOrphan : Row := { c4NpciRb with rrn := "R5", upiTranId := "U5" }

def c4State : EngineState := ⟨[c4CbsDebit], [], [c4NpciRb, c4NpciRbOrphan]⟩

/-- A common per-source slot for legacy-classifier examples. -/
def legacySlotOk : SrcRec := { amount := 100, date := "2025-01-10", drCr := "C", rc := "00" }

/-- The C2 counterexample record: three sources present with equal amounts
and dates, NPCI RC declined while CBS RC is a success marker. -/
def c2CounterRec : RecRecord :=
  { cbs := some legacySlotOk, switch := some legacySlotOk,
    npci := some { legacySlotOk with rc := "05" } }

/-- A plain three-way-agreeing record for the C2 witness. -/
def c2WitnessRec : RecRecord :=
  { cbs := some legacySlotOk, switch := some legacySlotOk,
    npci := some legacySlotOk }

/-- Records for the C9 and C10 witnesses. -/
def c9MatchedRec : RecRecord := { cbs := some legacySlotOk, status := "MATCHED" }

/-- The voucher generate_vouchers_from_recon produces for c9MatchedRec. -/
def c9Voucher : Voucher :=
  { voucherId := "VOUCHER_1", voucherType := "PAYMENT", amount := 100,
    glEntries := [{ accountCode := "100200", debitAmount := 100 },
                  { accountCode := "100300", creditAmount := 100 }],
    rrn := "R1" }

def c10SlotA : SrcRec := { amount := 100, date := "2025-01-10", drCr := "D", rc := "00" }

def c10SlotB : SrcRec := { amount := 250, date := "2025-01-12", drCr := "C", rc := "00" }

def c10Rec : RecRecord :=
  { cbs := some c10SlotA, switch := some c10SlotB, status := "PARTIAL_MISMATCH" }

def c10OtherRec : RecRecord := { cbs := some c10SlotB, status := "ORPHAN" }

def c10Results : List (String × RecRecord) := [("R1", c10Rec), ("R2", c10OtherRec)]

/-- Proposal and stores for the C7 witness. -/
def c7Proposal : Proposal :=
  { proposalId := "P1", rrn := "R1", action := "force_match", runId := "RUN1",
    maker := "u1", status := "proposed" }

def c7Files : ProposalFiles := [("RUN1", [c7Proposal])]

def c7ExcRec : ExcRec := { rrn := "R1", status := "ORPHAN" }

def c7Recon : ReconOut := .legacyMap [("R1", c7ExcRec)]

/-- Accounting artifact and store for the C6 and C8 examples: one voucher
awaiting CBS upload, TTUM already downloaded. -/
def c6Acct : AcctData :=
  { vouchers := [{ voucherId := "V1", status := "voucher_generated", glEntries := ["e1"] }] }

def c6Store : RunStore :=
  { runExists := true, history := [], reconOutput := none,
    accountingOutput := some c6Acct, isDownloaded := true }

/-- A fault schedule failing exactly the COMPLETED history write, after the
artifact rename. -/
def failAtCompletedMark : RbFaults := { markCompletedOk := false }

/-- Recon artifact and store for the C8 mid-recon witness. -/
def c8Recon : ReconData :=
  { matched := [{ rrn := "R1", cycleId := "1C" }], unmatched := [] }

def c8Store : RunStore :=
  { runExists := true, history := [], reconOutput := some c8Recon,
    accountingOutput := some c6Acct, isDownloaded := false }

/-! ## General lemmas -/

theorem markWhere_getElem? (p : Row → Bool) (m : Row → Row) (l : List Row) (k : Nat) :
    (markWhere p m l)[k]? = l[k]?.map fun r => if p r then m r else r :=
  List.getElem?_map ..

theorem markIdx_getElem? (idxs : List Nat) (m : Row → Row) (l : List Row) (k : Nat) :
    (markIdx idxs m l)[k]? = l[k]?.map fun r => if k ∈ idxs then m r else r := by
  simp only [markIdx, List.getElem?_map, List.getElem?_enum]
  cases l[k]? <;> simp

theorem ratSub_eq_div (a b : ℚ) :
    a - b = ((a.num * b.den - b.num * a.den : ℤ) : ℚ) / ((a.den * b.den : ℕ) : ℚ) := by
  have had : ((a.den : ℚ)) ≠ 0 := by positivity
  have hbd : ((b.den : ℚ)) ≠ 0 := by positivity
  conv_lhs => rw [← Rat.num_div_den a, ← Rat.num_div_den b]
  rw [div_sub_div _ _ had hbd]
  push_cast
  ring_nf

/-- The integer form of the tolerance test agrees with abs(a - b) < 1/100. -/
theorem absDiffLtHundredth_iff (a b : ℚ) :
    absDiffLtHundredth a b = true ↔ |a - b| < 1/100 := by
  unfold absDiffLtHundredth
  rw [decide_eq_true_iff]
  rw [ratSub_eq_div a b, abs_div]
  have hd : (0:ℚ) < ((a.den * b.den : ℕ) : ℚ) := by positivity
  rw [abs_of_pos hd, div_lt_div_iff₀ hd (by norm_num : (0:ℚ) < 100)]
  rw [one_mul, ← Int.cast_abs, Int.abs_eq_natAbs]
  norm_cast

/-- The integer form of the tolerance test agrees with abs(a - b) > 1/100. -/
theorem absDiffGtHundredth_iff (a b : ℚ) :
    absDiffGtHundredth a b = true ↔ 1/100 < |a - b| := by
  unfold absDiffGtHundredth
  rw [decide_eq_true_iff]
  rw [ratSub_eq_div a b, abs_div]
  have hd : (0:ℚ) < ((a.den * b.den : ℕ) : ℚ) := by positivity
  rw [abs_of_pos hd, div_lt_div_iff₀ (by norm_num : (0:ℚ) < 100) hd]
  rw [one_mul, ← Int.cast_abs, Int.abs_eq_natAbs]
  norm_cast

theorem rowEvol_refl (a : Row) : RowEvol a a := ⟨rfl, rfl, fun _ => rfl⟩

theorem rowEvol_trans {a b c : Row} (h1 : RowEvol a b) (h2 : RowEvol b c) : RowEvol a c := by
  obtain ⟨r1, a1, p1⟩ := h1
  obtain ⟨r2, a2, p2⟩ := h2
  refine ⟨r2.trans r1, a2.trans a1, fun hc => ?_⟩
  have hb := p2 hc
  subst hb
  exact p1 hc

theorem listEvol_refl (l : List Row) : ListEvol l l :=
  List.forall₂_same.2 fun a _ => rowEvol_refl a

theorem listEvol_trans {l1 l2 l3 : List Row} (h1 : ListEvol l1 l2) (h2 : ListEvol l2 l3) :
    ListEvol l1 l3 := by
  induction h1 generalizing l3 with
  | nil => cases h2; exact List.Forall₂.nil
  | cons hab htail ih =>
    cases h2 with
    | cons hbc htail2 => exact List.Forall₂.cons (rowEvol_trans hab hbc) (ih htail2)

theorem goodMark_rowEvol {m : Row → Row} (hm : GoodMark m) (r : Row) : RowEvol r (m r) := by
  obtain ⟨h1, h2, h3⟩ := hm r
  exact ⟨h1, h2, fun hfalse => absurd (h3.symm.trans hfalse) (by decide)⟩

theorem listEvol_markWhere {m : Row → Row} (hm : GoodMark m) (p : Row → Bool)
    (l : List Row) : ListEvol l (markWhere p m l) := by
  unfold ListEvol markWhere
  rw [List.forall₂_map_right_iff]
  refine List.forall₂_same.2 fun a _ => ?_
  by_cases hp : p a
  · simpa only [hp, if_true] using goodMark_rowEvol hm a
  · simp only [hp, if_false]
    exact rowEvol_refl a

theorem listEvol_markIdx {m : Row → Row} (hm : GoodMark m) (idxs : List Nat)
    (l : List Row) : ListEvol l (markIdx idxs m l) := by
  unfold ListEvol
  rw [List.forall₂_iff_get]
  constructor
  · simp [markIdx]
  · intro i h1 h2
    have hlen : i < l.length := h1
    have : (markIdx idxs m l).get ⟨i, h2⟩ = if i ∈ idxs then m (l.get ⟨i, h1⟩) else l.get ⟨i, h1⟩ := by
      have hg := markIdx_getElem? idxs m l i
      rw [List.getElem?_eq_getElem hlen] at hg
      have h2' : i < (markIdx idxs m l).length := h2
      rw [List.getElem?_eq_getElem h2'] at hg
      simpa [List.get_eq_getElem] using hg
    rw [this]
    by_cases hi : i ∈ idxs
    · simpa only [hi, if_true] using goodMark_rowEvol hm (l.get ⟨i, h1⟩)
    · simp only [hi, if_false]
      exact rowEvol_refl _

theorem goodMark_hangingMark (reason : String) : GoodMark (hangingMark reason) :=
  fun _ => ⟨rfl, rfl, rfl⟩

theorem goodMark_selfMatchedMark : GoodMark selfMatchedMark := fun _ => ⟨rfl, rfl, rfl⟩

theorem goodMark_settlementMark : GoodMark settlementMark := fun _ => ⟨rfl, rfl, rfl⟩

theorem goodMark_doubleEntryMark : GoodMark doubleEntryMark := fun _ => ⟨rfl, rfl, rfl⟩

theorem goodMark_matchedMark (t : String) : GoodMark (matchedMark t) := fun _ => ⟨rfl, rfl, rfl⟩

theorem goodMark_tcc102Mark : GoodMark tcc102Mark := fun _ => ⟨rfl, rfl, rfl⟩

theorem goodMark_tcc103Mark : GoodMark tcc103Mark := fun _ => ⟨rfl, rfl, rfl⟩

theorem goodMark_npciFailedMark : GoodMark npciFailedMark := fun _ => ⟨rfl, rfl, rfl⟩

theorem goodMark_npciDeclinedMark : GoodMark npciDeclinedMark := fun _ => ⟨rfl, rfl, rfl⟩

theorem goodMark_failedReversalMark : GoodMark failedReversalMark := fun _ => ⟨rfl, rfl, rfl⟩

theorem goodMark_statusMark (ms : String) (et : Option String) (tr : Bool)
    (tt : Option String) : GoodMark (statusMark ms et tr tt) := fun _ => ⟨rfl, rfl, rfl⟩

/-! ## C10 - force_match_rrn frame effect -/

/-- C10: for every results map containing the RRN with both named sources
present, force_match_rrn sets that record's status to FORCE_MATCHED and
overwrites source2's stored amount and date with source1's, leaving every
other field of the record and every record under a different RRN
unchanged. -/
theorem forceMatchRrn_updates (results : List (String × RecRecord)) (rrn : String)
    (s1 s2 : SourceName) (i : Nat) (rec : RecRecord) (a b : SrcRec)
    (hi : results[i]? = some (rrn, rec))
    (ha : rec.getSlot s1 = some a) (hb : rec.getSlot s2 = some b) :
    (forceMatchRrn rrn s1 s2 results)[i]? =
      some (rrn, ({ rec with status := "FORCE_MATCHED" }).setSlot s2
        (some { b with amount := a.amount, date := a.date })) ∧
    ∀ (j : Nat) (key : String) (other : RecRecord),
      results[j]? = some (key, other) → key ≠ rrn →
      (forceMatchRrn rrn s1 s2 results)[j]? = some (key, other) := by
  constructor
  · unfold forceMatchRrn
    rw [List.getElem?_map, hi]
    simp [ha, hb]
  · intro j key other hj hne
    unfold forceMatchRrn
    rw [List.getElem?_map, hj]
    simp [hne]

/-- Closed witness for the C10 theorem at a concrete two-record results
map. -/
theorem forceMatchRrn_updates_witness :
    (forceMatchRrn "R1" SourceName.cbs SourceName.switch c10Results)[0]? =
      some ("R1", ({ c10Rec with status := "FORCE_MATCHED" }).setSlot SourceName.switch
        (some { c10SlotB with amount := c10SlotA.amount, date := c10SlotA.date })) ∧
    (forceMatchRrn "R1" SourceName.cbs SourceName.switch c10Results)[1]? =
      some ("R2", c10OtherRec) := by
  have h := forceMatchRrn_updates c10Results "R1" SourceName.cbs SourceName.switch 0
    c10Rec c10SlotA c10SlotB rfl rfl rfl
  exact ⟨h.1, h.2 1 "R2" c10OtherRec rfl (by decide)⟩

/-! ## C9 - voucher balance and posting guard -/

theorem createPaymentVoucher_balanced (k : Nat) (rrn : String) (rec : RecRecord)
    (v : Voucher) (h : createPaymentVoucher k rrn rec = some v) :
    v.debitTotal = v.creditTotal := by
  unfold createPaymentVoucher at h
  rcases hc : rec.cbs with _ | c <;> rw [hc] at h <;> dsimp only at h <;> split at h <;>
    first
      | (injection h with h; subst h; simp [Voucher.debitTotal, Voucher.creditTotal])
      | exact absurd h (by simp)

theorem createSettlementVoucher_balanced (k : Nat) (rrn : String) (rec : RecRecord)
    (v : Voucher) (h : createSettlementVoucher k rrn rec = some v) :
    v.debitTotal = v.creditTotal := by
  unfold createSettlementVoucher at h
  rcases hc : rec.cbs with _ | c <;> rcases hs : rec.switch with _ | s <;>
      rcases hn : rec.npci with _ | n <;>
    rw [hc, hs, hn] at h <;> dsimp only at h <;> split at h <;>
    first
      | (injection h with h; subst h; simp [Voucher.debitTotal, Voucher.creditTotal])
      | exact absurd h (by simp)

theorem voucherStep_balanced (acc : List Voucher × Nat) (pr : String × RecRecord)
    (hacc : ∀ v ∈ acc.1, v.debitTotal = v.creditTotal) :
    ∀ v ∈ (voucherStep acc pr).1, v.debitTotal = v.creditTotal := by
  intro v hv
  unfold voucherStep at hv
  by_cases h1 : pr.2.status == "MATCHED"
  · rw [if_pos h1] at hv
    cases hcp : createPaymentVoucher acc.2 pr.1 pr.2 with
    | none => rw [hcp] at hv; exact hacc v hv
    | some w =>
      rw [hcp] at hv
      rcases List.mem_append.1 hv with h | h
      · exact hacc v h
      · simp only [List.mem_singleton] at h
        subst h
        exact createPaymentVoucher_balanced _ _ _ _ hcp
  · rw [if_neg h1] at hv
    by_cases h2 : (pr.2.status == "PARTIAL_MATCH" || pr.2.status == "ORPHAN")
    · rw [if_pos h2] at hv
      cases hcs : createSettlementVoucher acc.2 pr.1 pr.2 with
      | none => rw [hcs] at hv; exact hacc v hv
      | some w =>
        rw [hcs] at hv
        rcases List.mem_append.1 hv with h | h
        · exact hacc v h
        · simp only [List.mem_singleton] at h
          subst h
          exact createSettlementVoucher_balanced _ _ _ _ hcs
    · rw [if_neg h2] at hv
      exact hacc v hv

theorem foldl_voucherStep_balanced (results : List (String × RecRecord)) :
    ∀ acc : List Voucher × Nat, (∀ v ∈ acc.1, v.debitTotal = v.creditTotal) →
    ∀ v ∈ (results.foldl voucherStep acc).1, v.debitTotal = v.creditTotal := by
  induction results with
  | nil => intro acc hacc; exact hacc
  | cons pr rest ih =>
    intro acc hacc
    exact ih (voucherStep acc pr) (voucherStep_balanced acc pr hacc)

/-- C9: every voucher created by generate_vouchers_from_recon has its GL
debit total equal to its GL credit total (hence within the 0.01 tolerance);
and post_vouchers_to_gl moves a targeted voucher to POSTED exactly when its
totals agree within 0.01, marking it FAILED otherwise, so a voucher can
newly reach POSTED only when balanced within the tolerance. -/
theorem voucher_balance_and_posting :
    (∀ results : List (String × RecRecord), ∀ v ∈ generateVouchersFromRecon results,
       v.debitTotal = v.creditTotal ∧ |v.debitTotal - v.creditTotal| ≤ 1/100) ∧
    (∀ (vouchers : List Voucher) (ids : Option (List String)) (i : Nat) (v : Voucher),
       vouchers[i]? = some v →
       (voucherTargeted ids v = true → |v.debitTotal - v.creditTotal| ≤ 1/100 →
          (postVouchersToGl vouchers ids)[i]? = some { v with status := .posted }) ∧
       (voucherTargeted ids v = true → ¬(|v.debitTotal - v.creditTotal| ≤ 1/100) →
          (postVouchersToGl vouchers ids)[i]? = some { v with status := .failed }) ∧
       (voucherTargeted ids v = false → (postVouchersToGl vouchers ids)[i]? = some v) ∧
       (∀ v', (postVouchersToGl vouchers ids)[i]? = some v' → v'.status = .posted →
          v.status ≠ .posted → |v.debitTotal - v.creditTotal| ≤ 1/100)) := by
  have hbridge : ∀ v : Voucher, absDiffGtHundredth v.debitTotal v.creditTotal = true ↔
      1/100 < |v.debitTotal - v.creditTotal| := fun v =>
    absDiffGtHundredth_iff v.debitTotal v.creditTotal
  constructor
  · intro results v hv
    have hbal := foldl_voucherStep_balanced results ([], 1) (by intro v hv; cases hv) v hv
    refine ⟨hbal, ?_⟩
    rw [hbal]
    simp
  · intro vouchers ids i v hv
    have hmap : (postVouchersToGl vouchers ids)[i]? =
        some (if voucherTargeted ids v then postVoucher v else v) := by
      unfold postVouchersToGl
      rw [List.getElem?_map, hv]
      rfl
    refine ⟨?_, ?_, ?_, ?_⟩
    · intro ht hle
      rw [hmap, if_pos ht]
      unfold postVoucher
      rw [if_neg fun hB => absurd ((hbridge v).1 hB) (not_lt.2 hle)]
    · intro ht hgt
      rw [hmap, if_pos ht]
      unfold postVoucher
      rw [if_pos ((hbridge v).2 (lt_of_not_le hgt))]
    · intro ht
      rw [hmap, if_neg (by simp [ht])]
    · intro v' hv' hposted hnot
      rw [hmap] at hv'
      by_cases ht : voucherTargeted ids v
      · rw [if_pos ht] at hv'
        unfold postVoucher at hv'
        by_cases hB : absDiffGtHundredth v.debitTotal v.creditTotal = true
        · rw [if_pos hB] at hv'
          injection hv' with hv''
          rw [← hv''] at hposted
          simp at hposted
        · exact not_lt.1 fun hlt => hB ((hbridge v).2 hlt)
      · rw [if_neg (by simp [ht])] at hv'
        injection hv' with hv''
        rw [← hv''] at hposted
        exact absurd hposted hnot

/-- Closed witness for the C9 theorem: the voucher generated for a concrete
MATCHED record is balanced and posts. -/
theorem voucher_balance_and_posting_witness :
    (c9Voucher.debitTotal = c9Voucher.creditTotal ∧
     |c9Voucher.debitTotal - c9Voucher.creditTotal| ≤ 1/100) ∧
    (postVouchersToGl [c9Voucher] none)[0]? =
      some { c9Voucher with status := VoucherStatus.posted } := by
  have hmem : c9Voucher ∈ generateVouchersFromRecon [("R1", c9MatchedRec)] := by
    norm_num [generateVouchersFromRecon, voucherStep, createPaymentVoucher, c9MatchedRec,
      c9Voucher, legacySlotOk]
    rfl
  have h1 := voucher_balance_and_posting.1 [("R1", c9MatchedRec)] c9Voucher hmem
  refine ⟨h1, ?_⟩
  exact (voucher_balance_and_posting.2 [c9Voucher] none 0 c9Voucher rfl).1 rfl
    (by rw [h1.1]; simp)

/-! ## C2 - legacy residual classifier table -/

theorem applyTccRules_parts (r : RecRecord) :
    (applyTccRules r).cbs = r.cbs ∧ (applyTccRules r).switch = r.switch ∧
    (applyTccRules r).npci = r.npci ∧ (applyTccRules r).ntsl = r.ntsl ∧
    (applyTccRules r).status = r.status := by
  unfold applyTccRules
  repeat' split
  all_goals exact ⟨rfl, rfl, rfl, rfl, rfl⟩

theorem ntslOverrideApplies_congr {r r' : RecRecord} (h1 : r'.cbs = r.cbs)
    (h2 : r'.switch = r.switch) (h3 : r'.npci = r.npci) (h4 : r'.ntsl = r.ntsl) :
    ntslOverrideApplies r' = ntslOverrideApplies r := by
  unfold ntslOverrideApplies RecRecord.glAmount
  rw [h1, h2, h3, h4]

theorem exceptionOverrideApplies_congr {r r' : RecRecord} (h1 : r'.cbs = r.cbs)
    (h3 : r'.npci = r.npci) :
    exceptionOverrideApplies r' = exceptionOverrideApplies r := by
  unfold exceptionOverrideApplies
  rw [h1, h3]

/-- C2 counterexample: a record present in all three sources with equal
amounts and equal dates is classified EXCEPTION, not MATCHED, because the
classifier's failed-transaction block overrides the table when the NPCI RC
is a non-success code while the CBS RC is a success code. -/
theorem classifyRecord_table_counterexample :
    c2CounterRec.presentCount = 3 ∧
    c2CounterRec.amountsMatch = true ∧ c2CounterRec.datesMatch = true ∧
    (classifyRecord c2CounterRec 3).status = "EXCEPTION" ∧
    (classifyRecord c2CounterRec 3).status ≠ "MATCHED" := by decide

/-- C2 (amended): provided neither the NTSL-settlement override nor the
NPCI-failed/CBS-success EXCEPTION override applies, the legacy residual
classifier assigns exactly the claimed table: three sources with equal
amounts and dates MATCHED, otherwise MISMATCH; two sources PARTIAL_MATCH or
PARTIAL_MISMATCH likewise; one source ORPHAN. -/
theorem classifyRecord_table (rec : RecRecord) (n : Nat)
    (hn : n = rec.presentCount)
    (hns : ntslOverrideApplies rec = false)
    (hex : exceptionOverrideApplies rec = false) :
    (n = 3 → (rec.amountsMatch && rec.datesMatch) = true →
       (classifyRecord rec n).status = "MATCHED") ∧
    (n = 3 → (rec.amountsMatch && rec.datesMatch) = false →
       (classifyRecord rec n).status = "MISMATCH") ∧
    (n = 2 → (rec.amountsMatch && rec.datesMatch) = true →
       (classifyRecord rec n).status = "PARTIAL_MATCH") ∧
    (n = 2 → (rec.amountsMatch && rec.datesMatch) = false →
       (classifyRecord rec n).status = "PARTIAL_MISMATCH") ∧
    (n = 1 → (classifyRecord rec n).status = "ORPHAN") := by
  have hz : ∀ b : String, ({ rec with status := b } : RecRecord).cbs = rec.cbs ∧
      ({ rec with status := b } : RecRecord).switch = rec.switch ∧
      ({ rec with status := b } : RecRecord).npci = rec.npci ∧
      ({ rec with status := b } : RecRecord).ntsl = rec.ntsl :=
    fun b => ⟨rfl, rfl, rfl, rfl⟩
  have hstat : ∀ b : String, (classifyRecord { rec with status := b } rec.presentCount) =
      (classifyRecord rec rec.presentCount) := fun b => rfl
  have key : (classifyRecord rec n).status = classifyBase rec n := by
    unfold classifyRecord
    obtain ⟨t1, t2, t3, t4, t5⟩ := applyTccRules_parts { rec with status := classifyBase rec n }
    obtain ⟨z1, z2, z3, z4⟩ := hz (classifyBase rec n)
    have hnso : ntslOverrideApplies (applyTccRules { rec with status := classifyBase rec n }) = false := by
      rw [ntslOverrideApplies_congr (t1.trans z1) (t2.trans z2) (t3.trans z3) (t4.trans z4)]
      exact hns
    have hexo : exceptionOverrideApplies (applyTccRules { rec with status := classifyBase rec n }) = false := by
      rw [exceptionOverrideApplies_congr (t1.trans z1) (t3.trans z3)]
      exact hex
    rw [show applyNtslOverride (applyTccRules { rec with status := classifyBase rec n }) =
        applyTccRules { rec with status := classifyBase rec n } by
      unfold applyNtslOverride; rw [hnso]; rfl]
    rw [show applyExceptionOverride (applyTccRules { rec with status := classifyBase rec n }) =
        applyTccRules { rec with status := classifyBase rec n } by
      unfold applyExceptionOverride; rw [hexo]; rfl]
    exact t5
  refine ⟨?_, ?_, ?_, ?_, ?_⟩
  · intro h3 had
    subst h3
    rw [key]
    simp [classifyBase, had]
  · intro h3 had
    subst h3
    rw [key]
    simp [classifyBase, had]
  · intro h2 had
    subst h2
    rw [key]
    simp [classifyBase, had]
  · intro h2 had
    subst h2
    rw [key]
    simp [classifyBase, had]
  · intro h1
    subst h1
    rw [key]
    simp [classifyBase]

/-- Closed witness for the amended C2 theorem at a concrete three-way
record. -/
theorem classifyRecord_table_witness :
    (classifyRecord c2WitnessRec 3).status = "MATCHED" :=
  (classifyRecord_table c2WitnessRec 3 (by decide) (by decide) (by decide)).1 rfl (by decide)

/-! ## C3 - pass-ordering invariant violated by (RRN, Amount) marking -/

/-- C3 (code evaluated at the failing input): after the eight passes the
first CBS row of c3Input is processed with terminal status MATCHED and
exception SELF_MATCHED, yet the residual matrix pass afterwards rewrites it
to UNMATCHED with exception NPCI_FAILED and a REVERSAL TTUM, because
_mark_transaction_status selects rows to mark by (RRN, Amount) equality
rather than by row identity, catching already-processed rows. -/
theorem later_pass_reclassifies_processed_row :
    ((afterPasses c3Input).cbs.map fun r =>
        (r.processed, r.matchStatus, r.exceptionType, r.ttumRequired, r.ttumType)) =
      [(true, "MATCHED", some "SELF_MATCHED", false, none),
       (true, "MATCHED", some "SELF_MATCHED", false, none),
       (false, "UNMATCHED", none, false, none)] ∧
    ((performUpiReconciliation c3Input).cbs.map fun r =>
        (r.matchStatus, r.exceptionType, r.ttumRequired, r.ttumType)) =
      [("UNMATCHED", some "NPCI_FAILED", true, some "REVERSAL"),
       ("UNMATCHED", some "NPCI_FAILED", true, some "REVERSAL"),
       ("UNMATCHED", some "NPCI_FAILED", true, some "REVERSAL")] := by decide

/-! ## C6 - download lock not enforced on accounting rollback -/

/-- C6 (code evaluated at the failing input): with download_meta.json
recording is_downloaded true for the run, the accounting rollback is not
refused: _validate_rollback_allowed never consults the download flag, the
rollback reports success, and the accounting artifact is mutated (the
voucher is reset to matched/pending). -/
theorem accounting_rollback_ignores_download_lock :
    c6Store.isDownloaded = true ∧
    (validateRollbackAllowed c6Store "accounting").1 = true ∧
    (accountingRollback c6Store "CBS upload failure" "RB1" allOkFaults).2 = RbOutcome.ok 1 ∧
    (accountingRollback c6Store "CBS upload failure" "RB1" allOkFaults).1.accountingOutput =
      some (acctMutate c6Acct) ∧
    acctMutate c6Acct ≠ c6Acct := by decide

/-! ## C5 - duplicate-detection pass -/

/-- C5 counterexample: on an input whose CBS and NPCI each hold a duplicated
RRN, the engine marks the CBS rows UNMATCHED with exception
DOUBLE_DEBIT_CREDIT (status DUPLICATE is never used), and leaves the
duplicated NPCI rows entirely unmarked: no DUPLICATE status and no TTUM, the
duplicate-detection pass not scanning NPCI at all. -/
theorem step4_duplicates_counterexample :
    ((performUpiReconciliation c5Input).cbs.map fun r =>
        (r.matchStatus, r.exceptionType, r.ttumRequired, r.ttumType)) =
      [("UNMATCHED", some "DOUBLE_DEBIT_CREDIT", true, some "REVERSAL"),
       ("UNMATCHED", some "DOUBLE_DEBIT_CREDIT", true, some "REVERSAL")] ∧
    (∀ r ∈ (performUpiReconciliation c5Input).cbs, r.matchStatus ≠ "DUPLICATE") ∧
    ((performUpiReconciliation c5Input).npci.map fun r =>
        (r.processed, r.matchStatus, r.exceptionType, r.ttumRequired, r.ttumType)) =
      [(false, "UNMATCHED", none, false, none),
       (false, "UNMATCHED", none, false, none)] := by decide

/-- C5 (amended): the duplicate-detection pass leaves NPCI untouched; within
each of CBS and Switch, every unprocessed row whose RRN occurs more than
once among that source's unprocessed rows is marked processed and UNMATCHED
with exception DOUBLE_DEBIT_CREDIT, ttum_required true and ttum_type
REVERSAL (the doubleEntryMark), and every other row is unchanged. -/
theorem step4_duplicates (s : EngineState) :
    (step4 s).npci = s.npci ∧
    (step4 s).cbs = step4Source s.cbs ∧ (step4 s).switch = step4Source s.switch ∧
    ∀ (df : List Row) (i : Nat) (r : Row), df[i]? = some r →
      (r.processed = false →
        1 < ((df.filter fun q => !q.processed).filter fun q => q.rrn == r.rrn).length →
        (step4Source df)[i]? = some (doubleEntryMark r)) ∧
      (r.processed = true ∨
        ¬(1 < ((df.filter fun q => !q.processed).filter fun q => q.rrn == r.rrn).length) →
        (step4Source df)[i]? = some r) := by
  refine ⟨rfl, rfl, rfl, ?_⟩
  intro df i r hr
  have hmap : (step4Source df)[i]? = some (
      if !r.processed && 1 < ((df.filter fun q => !q.processed).filter fun q => q.rrn == r.rrn).length
      then doubleEntryMark r else r) := by
    unfold step4Source
    rw [List.getElem?_map, hr]
    rfl
  constructor
  · intro hp hcnt
    have hcond : (!r.processed && decide (1 < ((df.filter fun q => !q.processed).filter
        fun q => q.rrn == r.rrn).length)) = true := by
      rw [hp]
      simp only [Bool.not_false, Bool.true_and]
      exact decide_eq_true hcnt
    rw [hmap, if_pos hcond]
  · intro h
    rcases h with hp | hcnt
    · rw [hmap, if_neg (by rw [hp]; simp)]
    · have hcond : ¬ ((!r.processed && decide (1 < ((df.filter fun q => !q.processed).filter
          fun q => q.rrn == r.rrn).length)) = true) := by
        intro hc
        rw [Bool.and_eq_true] at hc
        exact hcnt (of_decide_eq_true hc.2)
      rw [hmap, if_neg hcond]

/-- Closed witness for the amended C5 theorem at the concrete duplicate
input. -/
theorem step4_duplicates_witness :
    (step4 c5Input).npci = c5Input.npci ∧
    (step4Source c5Input.cbs)[0]? = some (doubleEntryMark c5CbsA) := by
  have h := step4_duplicates c5Input
  exact ⟨h.1, (h.2.2.2 c5Input.cbs 0 c5CbsA rfl).1 rfl (by decide)⟩

/-! ## C7 - maker-checker guard on force-match approval -/

theorem findProposal_id (files : ProposalFiles) (pid : String) (p : Proposal)
    (h : findProposal files pid = some p) : p.proposalId = pid := by
  induction files with
  | nil => cases h
  | cons pr rest ih =>
    unfold findProposal at h
    rw [List.findSome?_cons] at h
    cases hf : pr.2.find? (fun q => q.proposalId == pid) with
    | none =>
      rw [hf] at h
      exact ih h
    | some q =>
      rw [hf] at h
      injection h with h
      subst h
      have hq := List.find?_some hf
      exact eq_of_beq hq

theorem mem_replaceProposal {pid : String} {u q : Proposal} {props : List Proposal}
    (h : q ∈ replaceProposal pid u props) : q = u ∨ q ∈ props := by
  induction props with
  | nil => cases h
  | cons p ps ih =>
    unfold replaceProposal at h
    by_cases hp : (p.proposalId == pid) = true
    · rw [if_pos hp] at h
      rcases List.mem_cons.1 h with h | h
      · exact Or.inl h
      · exact Or.inr (List.mem_cons_of_mem _ h)
    · rw [if_neg hp] at h
      rcases List.mem_cons.1 h with h | h
      · exact Or.inr (h ▸ List.mem_cons_self p ps)
      · rcases ih h with h | h
        · exact Or.inl h
        · exact Or.inr (List.mem_cons_of_mem _ h)

theorem lookup_persistProposal (files : ProposalFiles) (runId pid : String) (u : Proposal)
    (props : List Proposal) (h : alookup runId files = some props) :
    alookup runId (persistProposal files runId pid u) =
      some (replaceProposal pid u props) := by
  induction files with
  | nil => cases h
  | cons pr rest ih =>
    obtain ⟨k, v⟩ := pr
    unfold persistProposal
    rw [List.map_cons]
    unfold alookup at h ⊢
    by_cases hk : (k == runId) = true
    · rw [if_pos hk]
      rw [if_pos hk] at h
      dsimp only
      rw [if_pos hk]
      injection h with h
      dsimp only at h
      rw [h]
    · rw [if_neg hk]
      rw [if_neg hk] at h
      dsimp only
      rw [if_neg hk]
      exact ih h

theorem find?_replaceProposal (props : List Proposal) (pid : String) (u : Proposal)
    (hu : u.proposalId = pid)
    (h : (props.find? fun q => q.proposalId == pid).isSome = true) :
    (replaceProposal pid u props).find? (fun q => q.proposalId == pid) = some u := by
  induction props with
  | nil => simp [List.find?] at h
  | cons p ps ih =>
    unfold replaceProposal
    by_cases hp : (p.proposalId == pid) = true
    · rw [if_pos hp]
      exact List.find?_cons_of_pos ps (by simp [hu])
    · rw [if_neg hp]
      rw [List.find?_cons_of_neg (replaceProposal pid u ps) hp]
      apply ih
      rw [List.find?_cons_of_neg ps hp] at h
      exact h

theorem lookup_stampLegacy (recs : List (String × ExcRec)) (rrn pid checker now : String)
    (e : ExcRec) (h : alookup rrn recs = some e) :
    alookup rrn (stampLegacy rrn pid checker now recs) =
      some (forceMatchStamp pid checker now e) := by
  induction recs with
  | nil => cases h
  | cons pr rest ih =>
    obtain ⟨k, v⟩ := pr
    unfold stampLegacy
    unfold alookup at h
    by_cases hk : (k == rrn) = true
    · rw [if_pos hk]
      rw [if_pos hk] at h
      unfold alookup
      rw [if_pos hk]
      injection h with h
      dsimp only at h
      rw [h]
    · rw [if_neg hk]
      rw [if_neg hk] at h
      unfold alookup
      rw [if_neg hk]
      exact ih h

/-- C7: the approval endpoint rejects any approval whose checker equals the
proposal's maker (leaving all state untouched); successful approvals
preserve the invariant that no persisted proposal is approved with maker
equal to checker; and a valid approval (checker different from maker) marks
the proposal approved with the checker and timestamp stamped, and sets the
target RRN's reconciliation record status to FORCE_MATCHED with approver and
timestamp. -/
theorem approve_force_match_guard (files : ProposalFiles) (recon : ReconOut)
    (checker pid comments now : String) :
    (∀ p : Proposal, findProposal files pid = some p → checker = p.maker →
       approveForceMatch files recon checker pid comments now =
         Except.error "Maker and checker must be different") ∧
    (NoSelfApproval files → ∀ files' recon',
       approveForceMatch files recon checker pid comments now = Except.ok (files', recon') →
       NoSelfApproval files') ∧
    (∀ (p : Proposal) (props : List Proposal) (recs : List (String × ExcRec)) (e : ExcRec),
       findProposal files pid = some p → checker ≠ p.maker →
       alookup p.runId files = some props →
       (props.find? fun q => q.proposalId == pid).isSome = true →
       recon = ReconOut.legacyMap recs → alookup p.rrn recs = some e →
       ∃ files' recs',
         approveForceMatch files recon checker pid comments now =
           Except.ok (files', ReconOut.legacyMap recs') ∧
         ((alookup p.runId files').map fun props' =>
            props'.find? fun q => q.proposalId == pid) =
           some (some { p with
             status := "approved", checker := some checker,
             checkerComments := some comments, approvedAt := some now }) ∧
         alookup p.rrn recs' = some (forceMatchStamp pid checker now e)) := by
  refine ⟨?_, ?_, ?_⟩
  · intro p hp hmk
    unfold approveForceMatch
    rw [hp]
    dsimp only
    rw [if_pos (by simp [hmk])]
  · intro hns files' recon' hok
    unfold approveForceMatch at hok
    cases hfp : findProposal files pid with
    | none =>
      rw [hfp] at hok
      exact Except.noConfusion hok
    | some found =>
      rw [hfp] at hok
      dsimp only at hok
      by_cases hg : (checker == found.maker) = true
      · rw [if_pos hg] at hok
        exact Except.noConfusion hok
      · rw [if_neg hg] at hok
        injection hok with hok
        have h1 : files' = persistProposal files found.runId pid
            { found with
              status := "approved", checker := some checker,
              checkerComments := some comments, approvedAt := some now } := by
          have := congrArg Prod.fst hok
          exact this.symm
        subst h1
        intro pr' hpr' q hq hstatus
        unfold persistProposal at hpr'
        rcases List.mem_map.1 hpr' with ⟨pr, hpr, heq⟩
        by_cases hr : (pr.1 == found.runId) = true
        · rw [if_pos hr] at heq
          subst heq
          rcases mem_replaceProposal hq with hqq | hqq
          · subst hqq
            intro hcc
            injection hcc with hcc
            exact hg (by rw [hcc]; exact beq_self_eq_true _)
          · exact hns pr hpr q hqq hstatus
        · rw [if_neg hr] at heq
          subst heq
          exact hns pr hpr q hq hstatus
  · intro p props recs e hp hne hlk hfind hrec hrlk
    subst hrec
    refine ⟨persistProposal files p.runId pid
        { p with
          status := "approved", checker := some checker,
          checkerComments := some comments, approvedAt := some now },
      stampLegacy p.rrn pid checker now recs, ?_, ?_, ?_⟩
    · unfold approveForceMatch
      rw [hp]
      dsimp only
      rw [if_neg (by simp [hne])]
      unfold markReconForceMatched
      dsimp only
      rw [hrlk]
      rfl
    · rw [lookup_persistProposal files p.runId pid
        { p with
          status := "approved", checker := some checker,
          checkerComments := some comments, approvedAt := some now } props hlk]
      rw [Option.map_some']
      rw [find?_replaceProposal props pid
        { p with
          status := "approved", checker := some checker,
          checkerComments := some comments, approvedAt := some now }
        (findProposal_id files pid p hp) hfind]
    · exact lookup_stampLegacy recs p.rrn pid checker now e hrlk

/-- Closed witness for the C7 theorem at a concrete proposal store: a
self-approval attempt is rejected, and a different checker's approval
succeeds with the proposal approved and the record FORCE_MATCHED. -/
theorem approve_force_match_guard_witness :
    approveForceMatch c7Files c7Recon "u1" "P1" "ok" "t0" =
      Except.error "Maker and checker must be different" ∧
    approveForceMatch c7Files c7Recon "u2" "P1" "ok" "t0" =
      Except.ok ([("RUN1", [{ c7Proposal with
          status := "approved",
          checker := some "u2", checkerComments := some "ok",
          approvedAt := some "t0" }])],
        ReconOut.legacyMap [("R1", forceMatchStamp "P1" "u2" "t0" c7ExcRec)]) := by
  constructor
  · exact (approve_force_match_guard c7Files c7Recon "u1" "P1" "ok" "t0").1 c7Proposal rfl rfl
  · rfl

/-! ## C8 - rollback failure atomicity -/

theorem setHistStatus_of_fresh (hist : List HistRec) (rbId s : String)
    (hf : ∀ h ∈ hist, h.rollbackId ≠ rbId) : setHistStatus rbId s hist = hist := by
  induction hist with
  | nil => rfl
  | cons h rest ih =>
    have hh := hf h (List.mem_cons_self h rest)
    unfold setHistStatus
    rw [List.map_cons]
    rw [if_neg (by simp [hh])]
    have := ih fun x hx => hf x (List.mem_cons_of_mem _ hx)
    unfold setHistStatus at this
    rw [this]

theorem setHistStatus_append_fresh (hist : List HistRec) (rbId lvl s0 s : String)
    (hf : ∀ h ∈ hist, h.rollbackId ≠ rbId) :
    setHistStatus rbId s (hist ++ [⟨rbId, lvl, s0⟩]) = hist ++ [⟨rbId, lvl, s⟩] := by
  unfold setHistStatus
  rw [List.map_append]
  have h1 := setHistStatus_of_fresh hist rbId s hf
  unfold setHistStatus at h1
  rw [h1]
  congr 1
  rw [List.map_cons]
  rw [if_pos (by simp)]
  simp

theorem find?_hist_append_fresh (hist : List HistRec) (rbId : String) (rec : HistRec)
    (hf : ∀ h ∈ hist, h.rollbackId ≠ rbId) (hr : rec.rollbackId = rbId) :
    ((hist ++ [rec]).find? fun h => h.rollbackId == rbId) = some rec := by
  induction hist with
  | nil =>
    rw [List.nil_append]
    rw [List.find?_cons_of_pos [] (by simp [hr])]
  | cons h rest ih =>
    have hh := hf h (List.mem_cons_self h rest)
    rw [List.cons_append]
    rw [List.find?_cons_of_neg (rest ++ [rec]) (by simp [hh])]
    exact ih fun x hx => hf x (List.mem_cons_of_mem _ hx)

theorem histStatusOf_eq (bk : RunStore) (rbId : String) (rec : HistRec)
    (hist : List HistRec) (hh : bk.history = hist ++ [rec])
    (hf : ∀ h ∈ hist, h.rollbackId ≠ rbId) (hr : rec.rollbackId = rbId) :
    histStatusOf bk rbId = some rec.status := by
  unfold histStatusOf
  rw [hh]
  rw [find?_hist_append_fresh hist rbId rec hf hr]
  rfl

theorem rollbackFailPath_of_markFailureOk (st : RunStore) (rbId msg : String) (f : RbFaults)
    (hfail : f.markFailureOk = true) :
    rollbackFailPath st rbId msg f =
      ({ st with history := setHistStatus rbId "failed" st.history }, .err msg) := by
  unfold rollbackFailPath
  rw [if_pos hfail]

theorem rollbackFailPath_fst_acct (st : RunStore) (rbId msg : String) (f : RbFaults) :
    (rollbackFailPath st rbId msg f).1.accountingOutput = st.accountingOutput := by
  unfold rollbackFailPath
  split <;> rfl

theorem rollbackFailPath_fst_recon (st : RunStore) (rbId msg : String) (f : RbFaults) :
    (rollbackFailPath st rbId msg f).1.reconOutput = st.reconOutput := by
  unfold rollbackFailPath
  split <;> rfl

theorem failPath_obligations (st0 : RunStore) (rbId msg lvl s0 : String) (f : RbFaults)
    (hfail : f.markFailureOk = true) (hist : List HistRec)
    (hh : st0.history = hist ++ [⟨rbId, lvl, s0⟩])
    (hf : ∀ h ∈ hist, h.rollbackId ≠ rbId) :
    (rollbackFailPath st0 rbId msg f).1.accountingOutput = st0.accountingOutput ∧
    (rollbackFailPath st0 rbId msg f).1.reconOutput = st0.reconOutput ∧
    histStatusOf (rollbackFailPath st0 rbId msg f).1 rbId = some "failed" ∧
    (rollbackFailPath st0 rbId msg f).2 = RbOutcome.err msg := by
  rw [rollbackFailPath_of_markFailureOk st0 rbId msg f hfail]
  refine ⟨rfl, rfl, ?_, rfl⟩
  refine histStatusOf_eq _ rbId ⟨rbId, lvl, "failed"⟩ hist ?_ hf rfl
  show setHistStatus rbId "failed" st0.history = hist ++ [⟨rbId, lvl, "failed"⟩]
  rw [hh]
  exact setHistStatus_append_fresh hist rbId lvl s0 "failed" hf

theorem accounting_validate_isSome (st : RunStore)
    (hval : (validateRollbackAllowed st "accounting").1 = true) :
    ∃ d, st.accountingOutput = some d := by
  cases hA : st.accountingOutput with
  | some d => exact ⟨d, rfl⟩
  | none =>
    exfalso
    unfold validateRollbackAllowed at hval
    rw [hA] at hval
    repeat' split at hval
    all_goals simp_all

theorem midrecon_validate_isSome (st : RunStore)
    (hval : (validateRollbackAllowed st "mid_recon").1 = true) :
    ∃ r, st.reconOutput = some r := by
  cases hR : st.reconOutput with
  | some r => exact ⟨r, rfl⟩
  | none =>
    exfalso
    unfold validateRollbackAllowed at hval
    rw [hR] at hval
    repeat' split at hval
    all_goals simp_all

theorem accountingRollback_atomicity (st : RunStore) (reason rbId : String) (f : RbFaults)
    (d : AcctData) (hA : st.accountingOutput = some d)
    (hval : (validateRollbackAllowed st "accounting").1 = true)
    (hreason : strIsBlank reason = false)
    (hfresh : ∀ h ∈ st.history, h.rollbackId ≠ rbId) :
    ((accountingRollback st reason rbId f).1.accountingOutput = some d ∨
      (accountingRollback st reason rbId f).1.accountingOutput = some (acctMutate d)) ∧
    (f = allOkFaults →
      (accountingRollback st reason rbId f).2 = RbOutcome.ok (acctResetCount d) ∧
      (accountingRollback st reason rbId f).1.accountingOutput = some (acctMutate d) ∧
      histStatusOf (accountingRollback st reason rbId f).1 rbId = some "completed") ∧
    (f.logPendingOk = true → f.markFailureOk = true →
      (f.markInProgressOk = false ∨ f.readArtifactOk = false ∨ f.copyBackupOk = false ∨
        f.writeTempOk = false ∨ f.renameTempOk = false) →
      (accountingRollback st reason rbId f).1.accountingOutput = some d ∧
      histStatusOf (accountingRollback st reason rbId f).1 rbId = some "failed" ∧
      ∃ m, (accountingRollback st reason rbId f).2 = RbOutcome.err m) := by
  refine ⟨?_, ?_, ?_⟩
  · cases h1 : f.logPendingOk <;> cases h2 : f.markInProgressOk <;>
      cases h3 : f.readArtifactOk <;> cases h4 : f.copyBackupOk <;>
      cases h5 : f.writeTempOk <;> cases h6 : f.renameTempOk <;>
      cases h7 : f.markCompletedOk <;>
      simp [accountingRollback, rollbackFailPath_fst_acct, hval, hreason, hA,
        h1, h2, h3, h4, h5, h6, h7]
  · rintro rfl
    refine ⟨?_, ?_, ?_⟩
    · simp [accountingRollback, allOkFaults, hval, hreason, hA]
    · simp [accountingRollback, allOkFaults, hval, hreason, hA]
    · have hh : (accountingRollback st reason rbId allOkFaults).1.history =
          st.history ++ [⟨rbId, "accounting", "completed"⟩] := by
        simp [accountingRollback, allOkFaults, hval, hreason, hA]
        rw [setHistStatus_append_fresh st.history rbId "accounting" "pending"
          "in_progress" hfresh]
        rw [setHistStatus_append_fresh st.history rbId "accounting" "in_progress"
          "completed" hfresh]
      exact histStatusOf_eq _ rbId ⟨rbId, "accounting", "completed"⟩ st.history hh hfresh rfl
  · intro hlog hfail hbad
    cases h2 : f.markInProgressOk with
    | false =>
      have hred : accountingRollback st reason rbId f =
          rollbackFailPath
            { st with history := st.history ++ [⟨rbId, "accounting", "pending"⟩] }
            rbId "history write failed" f := by
        simp [accountingRollback, hval, hreason, hlog, h2]
      obtain ⟨ha, -, hh, ho⟩ := failPath_obligations
        { st with history := st.history ++ [⟨rbId, "accounting", "pending"⟩] }
        rbId "history write failed" "accounting" "pending" f hfail st.history rfl hfresh
      rw [hred]
      exact ⟨ha.trans hA, hh, "history write failed", ho⟩
    | true =>
    cases h3 : f.readArtifactOk with
    | false =>
      have hred : accountingRollback st reason rbId f =
          rollbackFailPath
            { st with history := setHistStatus rbId "in_progress" (st.history ++ [⟨rbId, "accounting", "pending"⟩]) }
            rbId "read failed" f := by
        simp [accountingRollback, hval, hreason, hlog, h2, h3, hA]
      obtain ⟨ha, -, hh, ho⟩ := failPath_obligations
        { st with history := setHistStatus rbId "in_progress" (st.history ++ [⟨rbId, "accounting", "pending"⟩]) }
        rbId "read failed" "accounting" "in_progress" f hfail st.history
        (setHistStatus_append_fresh st.history rbId "accounting" "pending"
          "in_progress" hfresh)
        hfresh
      rw [hred]
      exact ⟨ha.trans hA, hh, "read failed", ho⟩
    | true =>
    cases h4 : f.copyBackupOk with
    | false =>
      have hred : accountingRollback st reason rbId f =
          rollbackFailPath
            { st with history := setHistStatus rbId "in_progress" (st.history ++ [⟨rbId, "accounting", "pending"⟩]) }
            rbId "Cannot proceed without backup" f := by
        simp [accountingRollback, hval, hreason, hlog, h2, h3, h4, hA]
      obtain ⟨ha, -, hh, ho⟩ := failPath_obligations
        { st with history := setHistStatus rbId "in_progress" (st.history ++ [⟨rbId, "accounting", "pending"⟩]) }
        rbId "Cannot proceed without backup" "accounting" "in_progress" f hfail st.history
        (setHistStatus_append_fresh st.history rbId "accounting" "pending"
          "in_progress" hfresh)
        hfresh
      rw [hred]
      exact ⟨ha.trans hA, hh, "Cannot proceed without backup", ho⟩
    | true =>
    cases h5 : f.writeTempOk with
    | false =>
      have hred : accountingRollback st reason rbId f =
          rollbackFailPath
            { st with
                history := setHistStatus rbId "in_progress" (st.history ++ [⟨rbId, "accounting", "pending"⟩]),
                backups := st.backups + 1 }
            rbId "Failed to save rolled back accounting data" f := by
        simp [accountingRollback, hval, hreason, hlog, h2, h3, h4, h5, hA]
      obtain ⟨ha, -, hh, ho⟩ := failPath_obligations
        { st with
            history := setHistStatus rbId "in_progress" (st.history ++ [⟨rbId, "accounting", "pending"⟩]),
            backups := st.backups + 1 }
        rbId "Failed to save rolled back accounting data" "accounting" "in_progress" f
        hfail st.history
        (setHistStatus_append_fresh st.history rbId "accounting" "pending"
          "in_progress" hfresh)
        hfresh
      rw [hred]
      exact ⟨ha.trans hA, hh, "Failed to save rolled back accounting data", ho⟩
    | true =>
    cases h6 : f.renameTempOk with
    | false =>
      have hred : accountingRollback st reason rbId f =
          rollbackFailPath
            { st with
                history := setHistStatus rbId "in_progress" (st.history ++ [⟨rbId, "accounting", "pending"⟩]),
                backups := st.backups + 1 }
            rbId "Failed to save rolled back accounting data" f := by
        simp [accountingRollback, hval, hreason, hlog, h2, h3, h4, h5, h6, hA]
      obtain ⟨ha, -, hh, ho⟩ := failPath_obligations
        { st with
            history := setHistStatus rbId "in_progress" (st.history ++ [⟨rbId, "accounting", "pending"⟩]),
            backups := st.backups + 1 }
        rbId "Failed to save rolled back accounting data" "accounting" "in_progress" f
        hfail st.history
        (setHistStatus_append_fresh st.history rbId "accounting" "pending"
          "in_progress" hfresh)
        hfresh
      rw [hred]
      exact ⟨ha.trans hA, hh, "Failed to save rolled back accounting data", ho⟩
    | true =>
      rcases hbad with h | h | h | h | h <;> simp_all

theorem midReconRollback_atomicity (st : RunStore) (rbId : String) (f : RbFaults)
    (r : ReconData) (hR : st.reconOutput = some r)
    (hval : (validateRollbackAllowed st "mid_recon").1 = true)
    (hfresh : ∀ h ∈ st.history, h.rollbackId ≠ rbId) :
    ((midReconRollback st rbId f).1.reconOutput = some r ∨
      (midReconRollback st rbId f).1.reconOutput = some (midReconMutate r)) ∧
    (f = allOkFaults →
      (midReconRollback st rbId f).2 = RbOutcome.ok r.matched.length ∧
      (midReconRollback st rbId f).1.reconOutput = some (midReconMutate r) ∧
      histStatusOf (midReconRollback st rbId f).1 rbId = some "completed") ∧
    (f.logPendingOk = true → f.markFailureOk = true →
      (f.markInProgressOk = false ∨ f.readArtifactOk = false ∨ f.copyBackupOk = false ∨
        f.writeTempOk = false ∨ f.renameTempOk = false) →
      (midReconRollback st rbId f).1.reconOutput = some r ∧
      histStatusOf (midReconRollback st rbId f).1 rbId = some "failed" ∧
      ∃ m, (midReconRollback st rbId f).2 = RbOutcome.err m) := by
  refine ⟨?_, ?_, ?_⟩
  · cases h1 : f.logPendingOk <;> cases h2 : f.markInProgressOk <;>
      cases h3 : f.readArtifactOk <;> cases h4 : f.copyBackupOk <;>
      cases h5 : f.writeTempOk <;> cases h6 : f.renameTempOk <;>
      cases h7 : f.markCompletedOk <;>
      simp [midReconRollback, rollbackFailPath_fst_recon, hval, hR,
        h1, h2, h3, h4, h5, h6, h7]
  · rintro rfl
    refine ⟨?_, ?_, ?_⟩
    · simp [midReconRollback, allOkFaults, hval, hR]
    · simp [midReconRollback, allOkFaults, hval, hR]
    · have hh : (midReconRollback st rbId allOkFaults).1.history =
          st.history ++ [⟨rbId, "mid_recon", "completed"⟩] := by
        simp [midReconRollback, allOkFaults, hval, hR]
        rw [setHistStatus_append_fresh st.history rbId "mid_recon" "pending"
          "in_progress" hfresh]
        rw [setHistStatus_append_fresh st.history rbId "mid_recon" "in_progress"
          "completed" hfresh]
      exact histStatusOf_eq _ rbId ⟨rbId, "mid_recon", "completed"⟩ st.history hh hfresh rfl
  · intro hlog hfail hbad
    cases h2 : f.markInProgressOk with
    | false =>
      have hred : midReconRollback st rbId f =
          rollbackFailPath
            { st with history := st.history ++ [⟨rbId, "mid_recon", "pending"⟩] }
            rbId "history write failed" f := by
        simp [midReconRollback, hval, hlog, h2]
      obtain ⟨-, ha, hh, ho⟩ := failPath_obligations
        { st with history := st.history ++ [⟨rbId, "mid_recon", "pending"⟩] }
        rbId "history write failed" "mid_recon" "pending" f hfail st.history rfl hfresh
      rw [hred]
      exact ⟨ha.trans hR, hh, "history write failed", ho⟩
    | true =>
    cases h3 : f.readArtifactOk with
    | false =>
      have hred : midReconRollback st rbId f =
          rollbackFailPath
            { st with history := setHistStatus rbId "in_progress" (st.history ++ [⟨rbId, "mid_recon", "pending"⟩]) }
            rbId "read failed" f := by
        simp [midReconRollback, hval, hlog, h2, h3, hR]
      obtain ⟨-, ha, hh, ho⟩ := failPath_obligations
        { st with history := setHistStatus rbId "in_progress" (st.history ++ [⟨rbId, "mid_recon", "pending"⟩]) }
        rbId "read failed" "mid_recon" "in_progress" f hfail st.history
        (setHistStatus_append_fresh st.history rbId "mid_recon" "pending"
          "in_progress" hfresh)
        hfresh
      rw [hred]
      exact ⟨ha.trans hR, hh, "read failed", ho⟩
    | true =>
    cases h4 : f.copyBackupOk with
    | false =>
      have hred : midReconRollback st rbId f =
          rollbackFailPath
            { st with history := setHistStatus rbId "in_progress" (st.history ++ [⟨rbId, "mid_recon", "pending"⟩]) }
            rbId "Cannot proceed without backup" f := by
        simp [midReconRollback, hval, hlog, h2, h3, h4, hR]
      obtain ⟨-, ha, hh, ho⟩ := failPath_obligations
        { st with history := setHistStatus rbId "in_progress" (st.history ++ [⟨rbId, "mid_recon", "pending"⟩]) }
        rbId "Cannot proceed without backup" "mid_recon" "in_progress" f hfail st.history
        (setHistStatus_append_fresh st.history rbId "mid_recon" "pending"
          "in_progress" hfresh)
        hfresh
      rw [hred]
      exact ⟨ha.trans hR, hh, "Cannot proceed without backup", ho⟩
    | true =>
    cases h5 : f.writeTempOk with
    | false =>
      have hred : midReconRollback st rbId f =
          rollbackFailPath
            { st with
                history := setHistStatus rbId "in_progress" (st.history ++ [⟨rbId, "mid_recon", "pending"⟩]),
                backups := st.backups + 1 }
            rbId "Failed to save rolled back data" f := by
        simp [midReconRollback, hval, hlog, h2, h3, h4, h5, hR]
      obtain ⟨-, ha, hh, ho⟩ := failPath_obligations
        { st with
            history := setHistStatus rbId "in_progress" (st.history ++ [⟨rbId, "mid_recon", "pending"⟩]),
            backups := st.backups + 1 }
        rbId "Failed to save rolled back data" "mid_recon" "in_progress" f
        hfail st.history
        (setHistStatus_append_fresh st.history rbId "mid_recon" "pending"
          "in_progress" hfresh)
        hfresh
      rw [hred]
      exact ⟨ha.trans hR, hh, "Failed to save rolled back data", ho⟩
    | true =>
    cases h6 : f.renameTempOk with
    | false =>
      have hred : midReconRollback st rbId f =
          rollbackFailPath
            { st with
                history := setHistStatus rbId "in_progress" (st.history ++ [⟨rbId, "mid_recon", "pending"⟩]),
                backups := st.backups + 1 }
            rbId "Failed to save rolled back data" f := by
        simp [midReconRollback, hval, hlog, h2, h3, h4, h5, h6, hR]
      obtain ⟨-, ha, hh, ho⟩ := failPath_obligations
        { st with
            history := setHistStatus rbId "in_progress" (st.history ++ [⟨rbId, "mid_recon", "pending"⟩]),
            backups := st.backups + 1 }
        rbId "Failed to save rolled back data" "mid_recon" "in_progress" f
        hfail st.history
        (setHistStatus_append_fresh st.history rbId "mid_recon" "pending"
          "in_progress" hfresh)
        hfresh
      rw [hred]
      exact ⟨ha.trans hR, hh, "Failed to save rolled back data", ho⟩
    | true =>
      rcases hbad with h | h | h | h | h <;> simp_all

/-- **C8** (amended). Under a passing validation, a nonblank reason and a
fresh rollback id, the mid-recon and accounting rollbacks are atomic on
their target artifact: the persisted artifact is always either the prior
one or the fully mutated one, never a partial state; on a fault-free run
the history record ends COMPLETED, the mutation is fully applied and the
call returns the success payload; and on any I/O failure before the atomic
rename (the history file itself being writable) the record ends FAILED,
the prior artifact is intact and the call raises. The original claim's
FAILED-implies-intact direction is false when the failure happens after
the rename - when the COMPLETED history write fails the record reads
FAILED while the fully mutated artifact stays persisted. -/
theorem rollback_atomicity (st : RunStore) (reason rbId : String) (f : RbFaults)
    (hvalA : (validateRollbackAllowed st "accounting").1 = true)
    (hvalM : (validateRollbackAllowed st "mid_recon").1 = true)
    (hreason : strIsBlank reason = false)
    (hfresh : ∀ h ∈ st.history, h.rollbackId ≠ rbId) :
    (∃ d, st.accountingOutput = some d ∧
      ((accountingRollback st reason rbId f).1.accountingOutput = some d ∨
        (accountingRollback st reason rbId f).1.accountingOutput = some (acctMutate d)) ∧
      (f = allOkFaults →
        (accountingRollback st reason rbId f).2 = RbOutcome.ok (acctResetCount d) ∧
        (accountingRollback st reason rbId f).1.accountingOutput = some (acctMutate d) ∧
        histStatusOf (accountingRollback st reason rbId f).1 rbId = some "completed") ∧
      (f.logPendingOk = true → f.markFailureOk = true →
        (f.markInProgressOk = false ∨ f.readArtifactOk = false ∨ f.copyBackupOk = false ∨
          f.writeTempOk = false ∨ f.renameTempOk = false) →
        (accountingRollback st reason rbId f).1.accountingOutput = some d ∧
        histStatusOf (accountingRollback st reason rbId f).1 rbId = some "failed" ∧
        ∃ m, (accountingRollback st reason rbId f).2 = RbOutcome.err m)) ∧
    (∃ r, st.reconOutput = some r ∧
      ((midReconRollback st rbId f).1.reconOutput = some r ∨
        (midReconRollback st rbId f).1.reconOutput = some (midReconMutate r)) ∧
      (f = allOkFaults →
        (midReconRollback st rbId f).2 = RbOutcome.ok r.matched.length ∧
        (midReconRollback st rbId f).1.reconOutput = some (midReconMutate r) ∧
        histStatusOf (midReconRollback st rbId f).1 rbId = some "completed") ∧
      (f.logPendingOk = true → f.markFailureOk = true →
        (f.markInProgressOk = false ∨ f.readArtifactOk = false ∨ f.copyBackupOk = false ∨
          f.writeTempOk = false ∨ f.renameTempOk = false) →
        (midReconRollback st rbId f).1.reconOutput = some r ∧
        histStatusOf (midReconRollback st rbId f).1 rbId = some "failed" ∧
        ∃ m, (midReconRollback st rbId f).2 = RbOutcome.err m)) := by
  obtain ⟨d, hA⟩ := accounting_validate_isSome st hvalA
  obtain ⟨r, hR⟩ := midrecon_validate_isSome st hvalM
  exact ⟨⟨d, hA, accountingRollback_atomicity st reason rbId f d hA hvalA hreason hfresh⟩,
    ⟨r, hR, midReconRollback_atomicity st rbId f r hR hvalM hfresh⟩⟩

/-- **C8** counterexample: on a run whose accounting artifact holds one
generated voucher, an accounting rollback whose only fault is the
COMPLETED history write - after the artifact has already been atomically
renamed into place - ends with the history record FAILED and the call
raising, yet the persisted artifact is the fully rolled-back one, not the
prior one: FAILED does not imply the previous artifact is intact. -/
theorem rollback_failed_after_rename_counterexample :
    histStatusOf (accountingRollback c6Store "CBS upload failure" "RB1"
      failAtCompletedMark).1 "RB1" = some "failed" ∧
    (accountingRollback c6Store "CBS upload failure" "RB1"
      failAtCompletedMark).1.accountingOutput = some (acctMutate c6Acct) ∧
    acctMutate c6Acct ≠ c6Acct ∧
    (accountingRollback c6Store "CBS upload failure" "RB1" failAtCompletedMark).2 =
      RbOutcome.err "history write failed" := by
  decide

/-- Witness for C8: a fault-free accounting and mid-recon rollback on a
concrete store completes with the mutation applied. -/
theorem rollback_atomicity_witness :
    (accountingRollback c8Store "manual correction" "RB9" allOkFaults).2 =
      RbOutcome.ok 1 ∧
    (midReconRollback c8Store "RB9" allOkFaults).2 = RbOutcome.ok 1 ∧
    histStatusOf (accountingRollback c8Store "manual correction" "RB9" allOkFaults).1
      "RB9" = some "completed" := by
  obtain ⟨⟨d, hd, -, hAcc, -⟩, ⟨r, hr, -, hMid, -⟩⟩ :=
    rollback_atomicity c8Store "manual correction" "RB9" allOkFaults (by decide)
      (by decide) (by decide) (by simp [c8Store])
  have hd2 : some c6Acct = some d := hd
  injection hd2 with hd3
  have hr2 : some c8Recon = some r := hr
  injection hr2 with hr3
  subst hd3
  subst hr3
  obtain ⟨ho1, -, hs1⟩ := hAcc rfl
  obtain ⟨ho2, -, -⟩ := hMid rfl
  exact ⟨ho1, ho2, hs1⟩

/-! ## C4 - pass 6 deemed-accepted infrastructure -/

theorem step6Row_eq (s : EngineState) (ix : Nat × Row) :
    step6Row s ix =
      if 0 < (s.cbs.enum.filter (debitPred ix.2.rrn)).length then
        { s with npci := setAt ix.1 tcc102Mark s.npci,
                 cbs := markIdx ((s.cbs.enum.filter (debitPred ix.2.rrn)).map Prod.fst) tcc102Mark s.cbs }
      else { s with npci := setAt ix.1 tcc103Mark s.npci } := rfl

theorem step6_eq_fold (s : EngineState) :
    step6 s = (s.npci.enum.filter rbPred).foldl step6Row s := rfl

theorem setAt_getElem?_ne (i k : Nat) (m : Row → Row) (l : List Row) (h : k ≠ i) :
    (setAt i m l)[k]? = l[k]? := by
  unfold setAt
  rw [markIdx_getElem?]
  cases l[k]? with
  | none => rfl
  | some r => simp [h]

theorem setAt_getElem?_eq (i : Nat) (m : Row → Row) (l : List Row) :
    (setAt i m l)[i]? = l[i]?.map m := by
  unfold setAt
  rw [markIdx_getElem?]
  cases l[i]? with
  | none => rfl
  | some r => simp

theorem markIdx_length (idxs : List Nat) (m : Row → Row) (l : List Row) :
    (markIdx idxs m l).length = l.length := by
  unfold markIdx
  rw [List.length_map, List.enum_length]

theorem markIdx_getElem?_rrn (idxs : List Nat) (m : Row → Row) (l : List Row)
    (hm : ∀ r, (m r).rrn = r.rrn) (i : Nat) :
    ((markIdx idxs m l)[i]?).map (fun r => r.rrn) = (l[i]?).map (fun r => r.rrn) := by
  rw [markIdx_getElem?]
  cases l[i]? with
  | none => rfl
  | some r =>
    simp only [Option.map_some']
    congr 1
    split
    · exact hm r
    · rfl

theorem mem_enum_filter_map_fst (l : List Row) (q : Nat × Row → Bool) (i : Nat) :
    i ∈ ((l.enum.filter q).map Prod.fst) ↔ ∃ c, l[i]? = some c ∧ q (i, c) = true := by
  constructor
  · intro hm
    rcases List.mem_map.1 hm with ⟨p, hp, hfst⟩
    rcases List.mem_filter.1 hp with ⟨hpe, hq⟩
    cases p with
    | mk a b =>
      cases hfst
      exact ⟨b, (List.mk_mem_enum_iff_getElem?).1 hpe, hq⟩
  · rintro ⟨c, hc, hq⟩
    exact List.mem_map.2 ⟨(i, c),
      List.mem_filter.2 ⟨(List.mk_mem_enum_iff_getElem?).2 hc, hq⟩, rfl⟩

theorem enum_filter_fst_nodup (l : List Row) (q : Nat × Row → Bool) :
    ((l.enum.filter q).map Prod.fst).Nodup := by
  have hsub : ((l.enum.filter q).map Prod.fst).Sublist (l.enum.map Prod.fst) :=
    (List.filter_sublist l.enum).map Prod.fst
  refine hsub.nodup ?_
  rw [List.enum_map_fst]
  exact List.nodup_range l.length

theorem enumFrom_filter_snd (qr : Row → Bool) :
    ∀ (n : Nat) (l : List Row),
      ((l.enumFrom n).filter fun p => qr p.2).map Prod.snd = l.filter qr := by
  intro n l
  induction l generalizing n with
  | nil => rfl
  | cons a l ih =>
    rw [List.enumFrom_cons]
    cases h : qr a with
    | true => simp [List.filter_cons, h, ih]
    | false => simp [List.filter_cons, h, ih]

theorem enum_filter_rrns (qr : Row → Bool) (l : List Row) :
    ((l.enum.filter fun p => qr p.2).map fun p => p.2.rrn) =
      (l.filter qr).map (fun r => r.rrn) := by
  have h1 : ((l.enum.filter fun p => qr p.2).map fun p => p.2.rrn) =
      (((l.enum.filter fun p => qr p.2).map Prod.snd).map fun r => r.rrn) := by
    rw [List.map_map]
    rfl
  rw [h1]
  have h2 : (l.enum.filter fun p => qr p.2).map Prod.snd = l.filter qr :=
    enumFrom_filter_snd qr 0 l
  rw [h2]

theorem enumFrom_filter_congr (q : Nat × Row → Bool) :
    ∀ (n : Nat) (l1 l2 : List Row), l1.length = l2.length →
      (∀ i a b, l1[i]? = some a → l2[i]? = some b →
        a = b ∨ (q (n + i, a) = false ∧ q (n + i, b) = false)) →
      (l1.enumFrom n).filter q = (l2.enumFrom n).filter q := by
  intro n l1
  induction l1 generalizing n with
  | nil =>
    intro l2 hlen _
    cases l2 with
    | nil => rfl
    | cons b l2 => simp at hlen
  | cons a l1 ih =>
    intro l2 hlen hpt
    cases l2 with
    | nil => simp at hlen
    | cons b l2 =>
      have h0 := hpt 0 a b (by simp) (by simp)
      rw [List.enumFrom_cons, List.enumFrom_cons]
      have htail : (l1.enumFrom (n + 1)).filter q = (l2.enumFrom (n + 1)).filter q := by
        refine ih (n + 1) l2 (by simpa using hlen) ?_
        intro i x z hx hz
        have hres := hpt (i + 1) x z (by simpa using hx) (by simpa using hz)
        rcases hres with h | ⟨h1, h2⟩
        · exact Or.inl h
        · refine Or.inr ⟨?_, ?_⟩ <;>
            rw [show n + 1 + i = n + (i + 1) from by omega] <;> assumption
      rcases h0 with rfl | ⟨h1, h2⟩
      · rw [List.filter_cons, List.filter_cons, htail]
      · simp only [Nat.add_zero] at h1 h2
        simp [List.filter_cons, h1, h2, htail]

theorem enum_filter_congr (q : Nat × Row → Bool) (l1 l2 : List Row)
    (hlen : l1.length = l2.length)
    (hpt : ∀ i a b, l1[i]? = some a → l2[i]? = some b →
      a = b ∨ (q (i, a) = false ∧ q (i, b) = false)) :
    l1.enum.filter q = l2.enum.filter q := by
  have h := enumFrom_filter_congr q 0 l1 l2 hlen
    (by intro i a b ha hb; simpa using hpt i a b ha hb)
  simpa [List.enum] using h

theorem step6Row_frame (t : EngineState) (p : Nat × Row) (j : Nat) (ρ : String)
    (hpj : p.1 ≠ j) (hpr : p.2.rrn ≠ ρ) :
    (step6Row t p).npci[j]? = t.npci[j]? ∧
    (step6Row t p).cbs.length = t.cbs.length ∧
    (∀ (i : Nat), ((step6Row t p).cbs[i]?).map (fun r : Row => r.rrn) =
      (t.cbs[i]?).map (fun r : Row => r.rrn)) ∧
    (∀ (i : Nat) (c : Row), t.cbs[i]? = some c → c.rrn = ρ → (step6Row t p).cbs[i]? = some c) := by
  rw [step6Row_eq]
  by_cases hd : 0 < (t.cbs.enum.filter (debitPred p.2.rrn)).length
  · rw [if_pos hd]
    refine ⟨setAt_getElem?_ne p.1 j tcc102Mark t.npci (Ne.symm hpj),
      markIdx_length _ tcc102Mark t.cbs,
      fun i => markIdx_getElem?_rrn _ tcc102Mark t.cbs (fun r => rfl) i, ?_⟩
    intro i c hc hr
    have hnotmem : i ∉ (t.cbs.enum.filter (debitPred p.2.rrn)).map Prod.fst := by
      intro hmem
      rcases (mem_enum_filter_map_fst t.cbs (debitPred p.2.rrn) i).1 hmem with ⟨c2, hc2, hq⟩
      have hcc : c2 = c := by
        have := hc2.symm.trans hc
        exact Option.some.inj this
      subst hcc
      have hrr : (c2.rrn == p.2.rrn) = true := by
        have hq1 := (Bool.and_eq_true _ _).mp hq
        exact (Bool.and_eq_true _ _).mp hq1.1 |>.1
      have heq : c2.rrn = p.2.rrn := beq_iff_eq.mp hrr
      rw [hr] at heq
      exact hpr heq.symm
    show (markIdx _ tcc102Mark t.cbs)[i]? = some c
    rw [markIdx_getElem?, hc]
    simp [hnotmem]
  · rw [if_neg hd]
    exact ⟨setAt_getElem?_ne p.1 j tcc103Mark t.npci (Ne.symm hpj), rfl,
      fun i => rfl, fun i c hc _ => hc⟩

theorem step6_fold_frame (j : Nat) (ρ : String) :
    ∀ (M : List (Nat × Row)), (∀ p ∈ M, p.1 ≠ j ∧ p.2.rrn ≠ ρ) →
      ∀ t : EngineState,
      (M.foldl step6Row t).npci[j]? = t.npci[j]? ∧
      (M.foldl step6Row t).cbs.length = t.cbs.length ∧
      (∀ (i : Nat), ((M.foldl step6Row t).cbs[i]?).map (fun r : Row => r.rrn) =
        (t.cbs[i]?).map (fun r : Row => r.rrn)) ∧
      (∀ (i : Nat) (c : Row), t.cbs[i]? = some c → c.rrn = ρ →
        (M.foldl step6Row t).cbs[i]? = some c) := by
  intro M
  induction M with
  | nil => exact fun _ t => ⟨rfl, rfl, fun i => rfl, fun i c hc _ => hc⟩
  | cons p M ih =>
    intro hM t
    obtain ⟨hpj, hpr⟩ := hM p (List.mem_cons_self p M)
    have hM2 : ∀ x ∈ M, x.1 ≠ j ∧ x.2.rrn ≠ ρ :=
      fun x hx => hM x (List.mem_cons_of_mem p hx)
    obtain ⟨hs1, hs2, hs3, hs4⟩ := step6Row_frame t p j ρ hpj hpr
    obtain ⟨ih1, ih2, ih3, ih4⟩ := ih hM2 (step6Row t p)
    rw [List.foldl_cons]
    exact ⟨ih1.trans hs1, ih2.trans hs2, fun i => (ih3 i).trans (hs3 i),
      fun i c hc hr => ih4 i c (hs4 i c hc hr) hr⟩

/-- **C4**: on a pass-6 input whose CBS Dr_Cr column is canonical (D/C) and
whose unprocessed RB rows carry pairwise distinct RRNs, every unprocessed
NPCI row with RC RB is marked MATCHED with exception TCC_102 - together
with every unprocessed CBS debit row of its RRN - when such a CBS debit
exists, and otherwise is marked UNMATCHED with exception TCC_103,
ttum_required and ttum_type BENEFICIARY_CREDIT. -/
theorem step6_deemed_accepted (s : EngineState) (j : Nat) (y : Row)
    (hy : s.npci[j]? = some y) (hrc : y.rc = "RB") (hup : y.processed = false)
    (Hdc : ∀ c ∈ s.cbs, c.drCr = "D" ∨ c.drCr = "C")
    (Hnd : ((s.npci.filter fun r => r.rc == "RB" && !r.processed).map fun r => r.rrn).Nodup) :
    ((∃ (i : Nat) (c : Row), s.cbs[i]? = some c ∧ c.rrn = y.rrn ∧ c.drCr = "D" ∧
        c.processed = false) →
      (step6 s).npci[j]? = some (tcc102Mark y) ∧
      ∀ (i : Nat) (c : Row), s.cbs[i]? = some c → c.rrn = y.rrn → c.drCr = "D" →
        c.processed = false → (step6 s).cbs[i]? = some (tcc102Mark c)) ∧
    ((¬ ∃ (i : Nat) (c : Row), s.cbs[i]? = some c ∧ c.rrn = y.rrn ∧ c.drCr = "D" ∧
        c.processed = false) →
      (step6 s).npci[j]? = some (tcc103Mark y)) := by
  have hmem : (j, y) ∈ s.npci.enum.filter rbPred := by
    refine List.mem_filter.2 ⟨List.mk_mem_enum_iff_getElem?.2 hy, ?_⟩
    show rbPred (j, y) = true
    simp [rbPred, hrc, hup]
  obtain ⟨L1, L2, hL⟩ := List.append_of_mem hmem
  have hfstnd : ((L1 ++ (j, y) :: L2).map Prod.fst).Nodup := by
    rw [← hL]
    exact enum_filter_fst_nodup s.npci rbPred
  have hrrnnd : ((L1 ++ (j, y) :: L2).map fun p => p.2.rrn).Nodup := by
    rw [← hL]
    have he : ((s.npci.enum.filter rbPred).map fun p : Nat × Row => p.2.rrn) =
        ((s.npci.filter fun r => r.rc == "RB" && !r.processed).map fun r => r.rrn) :=
      enum_filter_rrns (fun r => r.rc == "RB" && !r.processed) s.npci
    rw [he]
    exact Hnd
  simp only [List.map_append, List.map_cons] at hfstnd hrrnnd
  have hjmem := (List.nodup_cons.mp (List.nodup_middle.mp hfstnd)).1
  have hrmem := (List.nodup_cons.mp (List.nodup_middle.mp hrrnnd)).1
  have hj1 : ∀ p ∈ L1, p.1 ≠ j ∧ p.2.rrn ≠ y.rrn := by
    intro p hp
    refine ⟨fun he => hjmem (List.mem_append_left _ ?_),
      fun he => hrmem (List.mem_append_left _ ?_)⟩
    · exact he ▸ List.mem_map_of_mem Prod.fst hp
    · exact he ▸ List.mem_map_of_mem (fun p : Nat × Row => p.2.rrn) hp
  have hj2 : ∀ p ∈ L2, p.1 ≠ j ∧ p.2.rrn ≠ y.rrn := by
    intro p hp
    refine ⟨fun he => hjmem (List.mem_append_right _ ?_),
      fun he => hrmem (List.mem_append_right _ ?_)⟩
    · exact he ▸ List.mem_map_of_mem Prod.fst hp
    · exact he ▸ List.mem_map_of_mem (fun p : Nat × Row => p.2.rrn) hp
  have hsplit : step6 s = L2.foldl step6Row (step6Row (L1.foldl step6Row s) (j, y)) := by
    rw [step6_eq_fold, hL, List.foldl_append, List.foldl_cons]
  obtain ⟨p1, p2, p3, p4⟩ := step6_fold_frame j y.rrn L1 hj1 s
  have hdeb : (L1.foldl step6Row s).cbs.enum.filter (debitPred y.rrn) =
      s.cbs.enum.filter (debitPred y.rrn) := by
    refine enum_filter_congr (debitPred y.rrn) _ _ p2 ?_
    intro i a b ha hb
    by_cases hr : b.rrn = y.rrn
    · left
      exact Option.some.inj (ha.symm.trans (p4 i b hb hr))
    · right
      have hmap := p3 i
      rw [ha, hb] at hmap
      have hab : a.rrn = b.rrn := by simpa using hmap
      constructor
      · simp [debitPred, hab, hr]
      · simp [debitPred, hr]
  constructor
  · rintro ⟨i0, c0, hc0, hr0, hd0, hp0⟩
    have hq0 : debitPred y.rrn (i0, c0) = true := by
      simp [debitPred, hr0, hp0, isDebitDrCr, hd0]
    have hne : 0 < (s.cbs.enum.filter (debitPred y.rrn)).length := by
      have hm : (i0, c0) ∈ s.cbs.enum.filter (debitPred y.rrn) :=
        List.mem_filter.2 ⟨List.mk_mem_enum_iff_getElem?.2 hc0, hq0⟩
      exact List.length_pos.2 (List.ne_nil_of_mem hm)
    have hmid : step6Row (L1.foldl step6Row s) (j, y) =
        { L1.foldl step6Row s with
            npci := setAt j tcc102Mark (L1.foldl step6Row s).npci,
            cbs := markIdx ((s.cbs.enum.filter (debitPred y.rrn)).map Prod.fst) tcc102Mark (L1.foldl step6Row s).cbs } := by
      rw [step6Row_eq]
      dsimp only
      rw [hdeb]
      rw [if_pos hne]
    constructor
    · obtain ⟨q1, -, -, -⟩ :=
        step6_fold_frame j y.rrn L2 hj2 (step6Row (L1.foldl step6Row s) (j, y))
      rw [hsplit, q1, hmid]
      dsimp only
      rw [setAt_getElem?_eq, p1, hy]
      rfl
    · intro i c hc hr hd hp
      have hq : debitPred y.rrn (i, c) = true := by
        simp [debitPred, hr, hp, isDebitDrCr, hd]
      have hmemI : i ∈ (s.cbs.enum.filter (debitPred y.rrn)).map Prod.fst :=
        (mem_enum_filter_map_fst s.cbs (debitPred y.rrn) i).2 ⟨c, hc, hq⟩
      have hc1 : (L1.foldl step6Row s).cbs[i]? = some c := p4 i c hc hr
      have hc2 : (step6Row (L1.foldl step6Row s) (j, y)).cbs[i]? =
          some (tcc102Mark c) := by
        rw [hmid]
        dsimp only
        rw [markIdx_getElem?, hc1]
        simp [hmemI]
      obtain ⟨-, -, -, q4⟩ :=
        step6_fold_frame j y.rrn L2 hj2 (step6Row (L1.foldl step6Row s) (j, y))
      rw [hsplit]
      exact q4 i (tcc102Mark c) hc2 hr
  · intro hnone
    have hempty : ¬ 0 < (s.cbs.enum.filter (debitPred y.rrn)).length := by
      intro hpos
      rcases List.exists_mem_of_length_pos hpos with ⟨p, hp⟩
      rcases List.mem_filter.1 hp with ⟨hpe, hq⟩
      cases p with
      | mk i c =>
        have hci : s.cbs[i]? = some c := List.mk_mem_enum_iff_getElem?.1 hpe
        simp only [debitPred, isDebitDrCr, Bool.and_eq_true, beq_iff_eq,
          Bool.not_eq_true', decide_eq_true_eq, List.mem_cons,
          List.mem_singleton, List.not_mem_nil, or_false] at hq
        apply hnone
        refine ⟨i, c, hci, hq.1.1, ?_, hq.2⟩
        have hmemc : c ∈ s.cbs := List.mem_iff_getElem?.2 ⟨i, hci⟩
        rcases Hdc c hmemc with h | h
        · exact h
        · rcases hq.1.2 with h1 | h1 | h1 <;> rw [h] at h1 <;> exact absurd h1 (by decide)
    have hmid : step6Row (L1.foldl step6Row s) (j, y) =
        { L1.foldl step6Row s with npci := setAt j tcc103Mark (L1.foldl step6Row s).npci } := by
      rw [step6Row_eq]
      dsimp only
      rw [hdeb]
      rw [if_neg hempty]
    obtain ⟨q1, -, -, -⟩ :=
      step6_fold_frame j y.rrn L2 hj2 (step6Row (L1.foldl step6Row s) (j, y))
    rw [hsplit, q1, hmid]
    dsimp only
    rw [setAt_getElem?_eq, p1, hy]
    rfl

/-- Witness for C4: on a two-RB-row input, the row with a CBS debit and the
CBS debit itself get TCC_102, the orphan row gets TCC_103. -/
theorem step6_deemed_accepted_witness :
    (step6 c4State).npci[0]? = some (tcc102Mark c4NpciRb) ∧
    (step6 c4State).cbs[0]? = some (tcc102Mark c4CbsDebit) ∧
    (step6 c4State).npci[1]? = some (tcc103Mark c4NpciRbOrphan) := by
  have h1 := (step6_deemed_accepted c4State 0 c4NpciRb rfl rfl rfl (by decide)
    (by decide)).1 ⟨0, c4CbsDebit, by simp [c4State], rfl, rfl, rfl⟩
  have h2 := (step6_deemed_accepted c4State 1 c4NpciRbOrphan (by simp [c4State]) rfl rfl
    (by decide) (by decide)).2 ?_
  · exact ⟨h1.1, h1.2 0 c4CbsDebit (by simp [c4State]) rfl rfl rfl, h2⟩
  · rintro ⟨i, c, hc, hr, -, -⟩
    cases i with
    | zero =>
      have hc2 : some c4CbsDebit = some c := by
        rw [← hc]
        simp [c4State]
      injection hc2 with he
      rw [← he] at hr
      exact absurd hr (by decide)
    | succ n =>
      have hc2 : (none : Option Row) = some c := by
        rw [← hc]
        simp [c4State]
      exact Option.noConfusion hc2

/-! ## C1 - the residual exception-handling matrix -/

theorem switchSourceStatus_cases (o : Option Row) :
    switchSourceStatus o = "SUCCESS" ∨ switchSourceStatus o = "FAILED" := by
  cases o with
  | none => exact Or.inr rfl
  | some q =>
    show (if (q.rc == "00") = true then "SUCCESS" else "FAILED") = "SUCCESS" ∨
      (if (q.rc == "00") = true then "SUCCESS" else "FAILED") = "FAILED"
    by_cases h : (q.rc == "00") = true
    · rw [if_pos h]
      exact Or.inl rfl
    · rw [if_neg h]
      exact Or.inr rfl

theorem npciSourceStatus_cases (o : Option Row) :
    npciSourceStatus o = "SUCCESS" ∨ npciSourceStatus o = "FAILED" := by
  cases o with
  | none => exact Or.inr rfl
  | some q =>
    show (if q.rc ∈ ["00", "RB"] then "SUCCESS" else "FAILED") = "SUCCESS" ∨
      (if q.rc ∈ ["00", "RB"] then "SUCCESS" else "FAILED") = "FAILED"
    by_cases h : q.rc ∈ ["00", "RB"]
    · rw [if_pos h]
      exact Or.inl rfl
    · rw [if_neg h]
      exact Or.inr rfl

theorem findMatchingByRrn_rrn (df : List Row) (ρ : String) (w : Row)
    (h : findMatchingByRrn df ρ = some w) : w.rrn = ρ := by
  have hp := List.find?_some h
  exact beq_iff_eq.mp (by simpa using hp)

theorem matrixRow_eq (usw unp : List Row) (s : EngineState) (c : Row) :
    matrixRow usw unp s c =
      markTransactionStatus c (findMatchingByRrn usw c.rrn) (findMatchingByRrn unp c.rrn)
        (residualParams usw unp c.rrn).1 (residualParams usw unp c.rrn).2.1
        (residualParams usw unp c.rrn).2.2.1 (residualParams usw unp c.rrn).2.2.2 s := by
  unfold matrixRow residualParams
  dsimp only
  rcases switchSourceStatus_cases (findMatchingByRrn usw c.rrn) with h | h <;>
    rcases npciSourceStatus_cases (findMatchingByRrn unp c.rrn) with h2 | h2 <;>
    rw [h, h2] <;> rfl

theorem markTransactionStatus_cbs_getElem? (c : Row) (sw np : Option Row) (ms : String)
    (et : Option String) (tr : Bool) (tt : Option String) (s : EngineState) (i : Nat) :
    (markTransactionStatus c sw np ms et tr tt s).cbs[i]? =
      s.cbs[i]?.map fun r =>
        if r.rrn == c.rrn && r.amount == c.amount then statusMark ms et tr tt r else r := by
  unfold markTransactionStatus
  cases sw <;> cases np <;> dsimp only <;> exact markWhere_getElem? _ _ s.cbs i

theorem markTransactionStatus_switch_none (c : Row) (np : Option Row) (ms : String)
    (et : Option String) (tr : Bool) (tt : Option String) (s : EngineState) (k : Nat) :
    (markTransactionStatus c none np ms et tr tt s).switch[k]? = s.switch[k]? := by
  unfold markTransactionStatus
  cases np <;> rfl

theorem markTransactionStatus_switch_some (c w : Row) (np : Option Row) (ms : String)
    (et : Option String) (tr : Bool) (tt : Option String) (s : EngineState) (k : Nat) :
    (markTransactionStatus c (some w) np ms et tr tt s).switch[k]? =
      s.switch[k]?.map fun r =>
        if r.rrn == w.rrn && r.amount == w.amount then statusMark ms et tr tt r else r := by
  unfold markTransactionStatus
  cases np <;> dsimp only <;> exact markWhere_getElem? _ _ s.switch k

theorem markTransactionStatus_npci_none (c : Row) (sw : Option Row) (ms : String)
    (et : Option String) (tr : Bool) (tt : Option String) (s : EngineState) (k : Nat) :
    (markTransactionStatus c sw none ms et tr tt s).npci[k]? = s.npci[k]? := by
  unfold markTransactionStatus
  cases sw <;> rfl

theorem markTransactionStatus_npci_some (c n : Row) (sw : Option Row) (ms : String)
    (et : Option String) (tr : Bool) (tt : Option String) (s : EngineState) (k : Nat) :
    (markTransactionStatus c sw (some n) ms et tr tt s).npci[k]? =
      s.npci[k]?.map fun r =>
        if r.rrn == n.rrn && r.amount == n.amount then statusMark ms et tr tt r else r := by
  unfold markTransactionStatus
  cases sw <;> dsimp only <;> exact markWhere_getElem? _ _ s.npci k

theorem matrixRow_frame_cbs (usw unp : List Row) (t : EngineState) (x : Row) (k : Nat)
    (r : Row) (hr : t.cbs[k]? = some r) (hx : x.rrn ≠ r.rrn) :
    (matrixRow usw unp t x).cbs[k]? = some r := by
  rw [matrixRow_eq, markTransactionStatus_cbs_getElem?, hr]
  have hne : r.rrn ≠ x.rrn := Ne.symm hx
  simp [hne]

theorem matrixRow_frame_switch (usw unp : List Row) (t : EngineState) (x : Row) (k : Nat)
    (w : Row) (hw : t.switch[k]? = some w) (hx : x.rrn ≠ w.rrn) :
    (matrixRow usw unp t x).switch[k]? = some w := by
  rw [matrixRow_eq]
  cases hsw : findMatchingByRrn usw x.rrn with
  | none =>
    rw [markTransactionStatus_switch_none]
    exact hw
  | some w2 =>
    rw [markTransactionStatus_switch_some, hw]
    have h2 : w2.rrn = x.rrn := findMatchingByRrn_rrn usw x.rrn w2 hsw
    have hne : w.rrn ≠ w2.rrn := by
      rw [h2]
      exact Ne.symm hx
    simp [hne]

theorem matrixRow_frame_npci (usw unp : List Row) (t : EngineState) (x : Row) (k : Nat)
    (n : Row) (hn : t.npci[k]? = some n) (hx : x.rrn ≠ n.rrn) :
    (matrixRow usw unp t x).npci[k]? = some n := by
  rw [matrixRow_eq]
  cases hnp : findMatchingByRrn unp x.rrn with
  | none =>
    rw [markTransactionStatus_npci_none]
    exact hn
  | some n2 =>
    rw [markTransactionStatus_npci_some, hn]
    have h2 : n2.rrn = x.rrn := findMatchingByRrn_rrn unp x.rrn n2 hnp
    have hne : n.rrn ≠ n2.rrn := by
      rw [h2]
      exact Ne.symm hx
    simp [hne]

theorem matrix_fold_frame_cbs (usw unp : List Row) :
    ∀ (M : List Row) (t : EngineState) (k : Nat) (r : Row),
      t.cbs[k]? = some r → (∀ x ∈ M, x.rrn ≠ r.rrn) →
      ((M.foldl (matrixRow usw unp) t).cbs[k]? = some r) := by
  intro M
  induction M with
  | nil => exact fun t k r hr _ => hr
  | cons x M ih =>
    intro t k r hr hno
    rw [List.foldl_cons]
    exact ih (matrixRow usw unp t x) k r
      (matrixRow_frame_cbs usw unp t x k r hr (hno x (List.mem_cons_self x M)))
      (fun z hz => hno z (List.mem_cons_of_mem x hz))

theorem matrix_fold_frame_switch (usw unp : List Row) :
    ∀ (M : List Row) (t : EngineState) (k : Nat) (w : Row),
      t.switch[k]? = some w → (∀ x ∈ M, x.rrn ≠ w.rrn) →
      ((M.foldl (matrixRow usw unp) t).switch[k]? = some w) := by
  intro M
  induction M with
  | nil => exact fun t k w hw _ => hw
  | cons x M ih =>
    intro t k w hw hno
    rw [List.foldl_cons]
    exact ih (matrixRow usw unp t x) k w
      (matrixRow_frame_switch usw unp t x k w hw (hno x (List.mem_cons_self x M)))
      (fun z hz => hno z (List.mem_cons_of_mem x hz))

theorem matrix_fold_frame_npci (usw unp : List Row) :
    ∀ (M : List Row) (t : EngineState) (k : Nat) (n : Row),
      t.npci[k]? = some n → (∀ x ∈ M, x.rrn ≠ n.rrn) →
      ((M.foldl (matrixRow usw unp) t).npci[k]? = some n) := by
  intro M
  induction M with
  | nil => exact fun t k n hn _ => hn
  | cons x M ih =>
    intro t k n hn hno
    rw [List.foldl_cons]
    exact ih (matrixRow usw unp t x) k n
      (matrixRow_frame_npci usw unp t x k n hn (hno x (List.mem_cons_self x M)))
      (fun z hz => hno z (List.mem_cons_of_mem x hz))

theorem matrixRow_hit (usw unp : List Row) (t : EngineState) (c : Row) (i : Nat)
    (hc : t.cbs[i]? = some c) :
    (matrixRow usw unp t c).cbs[i]? =
      some (statusMark (residualParams usw unp c.rrn).1 (residualParams usw unp c.rrn).2.1
        (residualParams usw unp c.rrn).2.2.1 (residualParams usw unp c.rrn).2.2.2 c) := by
  rw [matrixRow_eq, markTransactionStatus_cbs_getElem?, hc]
  simp

theorem residualMark_eq (s : EngineState) (c : Row) :
    residualMark s c =
      statusMark
        (residualParams (s.switch.filter fun r => !r.processed)
          (s.npci.filter fun r => !r.processed) c.rrn).1
        (residualParams (s.switch.filter fun r => !r.processed)
          (s.npci.filter fun r => !r.processed) c.rrn).2.1
        (residualParams (s.switch.filter fun r => !r.processed)
          (s.npci.filter fun r => !r.processed) c.rrn).2.2.1
        (residualParams (s.switch.filter fun r => !r.processed)
          (s.npci.filter fun r => !r.processed) c.rrn).2.2.2 c := rfl

/-- **C1** (amended). The residual pass classifies only the RRN groups that
still have an unprocessed CBS row - the loop iterates unprocessed CBS rows,
so the CBS leg of the combination key is always SUCCESS and the FAILED_*
rows of the matrix are unreachable. For such a group (under pairwise
distinct RRNs among unprocessed CBS rows) the row is marked with the
parameters derived from the frozen unprocessed Switch/NPCI snapshots:
Switch counts SUCCESS iff a row with the RRN is present with RC 00, NPCI
iff present with RC 00 or RB, and the outcome follows the SUCCESS_* matrix
rows (S/S: MATCHED; S/F and F/F: REMITTER_REFUND, marked UNMATCHED /
NPCI_FAILED with TTUM REVERSAL; F/S: SWITCH_UPDATE, marked UNMATCHED /
SWITCH_UPDATE without TTUM). Rows of any source whose RRN has no
unprocessed CBS row are left untouched. The full matrix table, including
the unreachable FAILED_* rows, is as config.py states it. -/
theorem residual_matrix_classification (s : EngineState)
    (Hnd : UnprocRrnNodup s.cbs = true) :
    (∀ (i : Nat) (c : Row), s.cbs[i]? = some c → c.processed = false →
      (applyExceptionHandlingMatrix s).cbs[i]? = some (residualMark s c)) ∧
    (∀ (k : Nat) (r : Row), s.cbs[k]? = some r →
      (∀ x ∈ s.cbs, x.processed = false → x.rrn ≠ r.rrn) →
      (applyExceptionHandlingMatrix s).cbs[k]? = some r) ∧
    (∀ (k : Nat) (w : Row), s.switch[k]? = some w →
      (∀ x ∈ s.cbs, x.processed = false → x.rrn ≠ w.rrn) →
      (applyExceptionHandlingMatrix s).switch[k]? = some w) ∧
    (∀ (k : Nat) (n : Row), s.npci[k]? = some n →
      (∀ x ∈ s.cbs, x.processed = false → x.rrn ≠ n.rrn) →
      (applyExceptionHandlingMatrix s).npci[k]? = some n) ∧
    (residualOutcome true true = ("MATCHED", none, false, none) ∧
      residualOutcome true false = ("UNMATCHED", some "NPCI_FAILED", true, some "REVERSAL") ∧
      residualOutcome false true = ("UNMATCHED", some "SWITCH_UPDATE", false, none) ∧
      residualOutcome false false = ("UNMATCHED", some "NPCI_FAILED", true, some "REVERSAL")) ∧
    (exceptionMatrix.lookup "SUCCESS_SUCCESS_SUCCESS" = some ("MATCHED", false) ∧
      exceptionMatrix.lookup "SUCCESS_SUCCESS_FAILED" = some ("REMITTER_REFUND", true) ∧
      exceptionMatrix.lookup "SUCCESS_FAILED_SUCCESS" = some ("SWITCH_UPDATE", false) ∧
      exceptionMatrix.lookup "SUCCESS_FAILED_FAILED" = some ("REMITTER_REFUND", true) ∧
      exceptionMatrix.lookup "FAILED_SUCCESS_SUCCESS" = some ("BENEFICIARY_RECOVERY", true) ∧
      exceptionMatrix.lookup "FAILED_SUCCESS_FAILED" = some ("UNMATCHED", false) ∧
      exceptionMatrix.lookup "FAILED_FAILED_SUCCESS" = some ("BENEFICIARY_RECOVERY", true) ∧
      exceptionMatrix.lookup "FAILED_FAILED_FAILED" = some ("UNMATCHED", false)) := by
  have Hnd2 : ((s.cbs.filter fun r => !r.processed).map fun r => r.rrn).Nodup :=
    of_decide_eq_true Hnd
  refine ⟨?_, ?_, ?_, ?_, ⟨rfl, rfl, rfl, rfl⟩,
    ⟨rfl, rfl, rfl, rfl, rfl, rfl, rfl, rfl⟩⟩
  · intro i c hci hcp
    have hcmem : c ∈ s.cbs.filter fun r => !r.processed := by
      refine List.mem_filter.2 ⟨List.mem_iff_getElem?.2 ⟨i, hci⟩, ?_⟩
      rw [hcp]
      rfl
    obtain ⟨C1, C2, hC⟩ := List.append_of_mem hcmem
    have hmapnd : ((C1 ++ c :: C2).map fun r => r.rrn).Nodup := by
      rw [← hC]
      exact Hnd2
    simp only [List.map_append, List.map_cons] at hmapnd
    have hcnotin := (List.nodup_cons.mp (List.nodup_middle.mp hmapnd)).1
    have h1 : ∀ x ∈ C1, x.rrn ≠ c.rrn := fun x hx he =>
      hcnotin (List.mem_append_left _ (he ▸ List.mem_map_of_mem (fun r => r.rrn) hx))
    have h2 : ∀ x ∈ C2, x.rrn ≠ c.rrn := fun x hx he =>
      hcnotin (List.mem_append_right _ (he ▸ List.mem_map_of_mem (fun r => r.rrn) hx))
    show ((s.cbs.filter fun r => !r.processed).foldl
      (matrixRow (s.switch.filter fun r => !r.processed)
        (s.npci.filter fun r => !r.processed)) s).cbs[i]? = some (residualMark s c)
    rw [hC, List.foldl_append, List.foldl_cons]
    have hpre := matrix_fold_frame_cbs (s.switch.filter fun r => !r.processed)
      (s.npci.filter fun r => !r.processed) C1 s i c hci h1
    have hhit := matrixRow_hit (s.switch.filter fun r => !r.processed)
      (s.npci.filter fun r => !r.processed)
      (C1.foldl (matrixRow (s.switch.filter fun r => !r.processed)
        (s.npci.filter fun r => !r.processed)) s) c i hpre
    have hsuf := matrix_fold_frame_cbs (s.switch.filter fun r => !r.processed)
      (s.npci.filter fun r => !r.processed) C2
      (matrixRow (s.switch.filter fun r => !r.processed)
        (s.npci.filter fun r => !r.processed)
        (C1.foldl (matrixRow (s.switch.filter fun r => !r.processed)
          (s.npci.filter fun r => !r.processed)) s) c) i _ hhit h2
    rw [residualMark_eq]
    exact hsuf
  · intro k r hr hno
    show ((s.cbs.filter fun x => !x.processed).foldl
      (matrixRow (s.switch.filter fun x => !x.processed)
        (s.npci.filter fun x => !x.processed)) s).cbs[k]? = some r
    refine matrix_fold_frame_cbs _ _ _ s k r hr ?_
    intro x hx
    rcases List.mem_filter.1 hx with ⟨hx1, hx2⟩
    exact hno x hx1 (by simpa using hx2)
  · intro k w hw hno
    show ((s.cbs.filter fun x => !x.processed).foldl
      (matrixRow (s.switch.filter fun x => !x.processed)
        (s.npci.filter fun x => !x.processed)) s).switch[k]? = some w
    refine matrix_fold_frame_switch _ _ _ s k w hw ?_
    intro x hx
    rcases List.mem_filter.1 hx with ⟨hx1, hx2⟩
    exact hno x hx1 (by simpa using hx2)
  · intro k n hn hno
    show ((s.cbs.filter fun x => !x.processed).foldl
      (matrixRow (s.switch.filter fun x => !x.processed)
        (s.npci.filter fun x => !x.processed)) s).npci[k]? = some n
    refine matrix_fold_frame_npci _ _ _ s k n hn ?_
    intro x hx
    rcases List.mem_filter.1 hx with ⟨hx1, hx2⟩
    exact hno x hx1 (by simpa using hx2)

/-- **C1** counterexample: a group whose Switch and NPCI rows are both
successful but which has no CBS record is left unprocessed by the eight
passes, and the matrix pass then does not touch it at all - the rows end
the run exactly as they entered it, UNMATCHED with no exception type and
no TTUM - although the claim's FAILED_SUCCESS_SUCCESS row demands
BENEFICIARY_RECOVERY with ttum_required. -/
theorem matrix_skips_cbs_absent_counterexample :
    ((afterPasses c1Input).switch.map fun r => r.processed) = [false] ∧
    ((afterPasses c1Input).npci.map fun r => r.processed) = [false] ∧
    (performUpiReconciliation c1Input).switch = [cexSwitchRow] ∧
    (performUpiReconciliation c1Input).npci = [cexNpciRow] ∧
    cexNpciRow.matchStatus = "UNMATCHED" ∧ cexNpciRow.exceptionType = none ∧
    cexNpciRow.ttumRequired = false ∧ cexNpciRow.ttumType = none := by
  decide

/-- Witness for C1: a fully successful group is marked MATCHED by the
residual pass. -/
theorem residual_matrix_classification_witness :
    (applyExceptionHandlingMatrix c1WitState).cbs[0]? =
      some (residualMark c1WitState c1WitCbs) ∧
    residualMark c1WitState c1WitCbs = statusMark "MATCHED" none false none c1WitCbs := by
  constructor
  · exact (residual_matrix_classification c1WitState (by decide)).1 0 c1WitCbs rfl rfl
  · rfl

end UPIRecon